import Mathlib

/-!
# Sequencer frame prefetch (`source/blender/blenkernel/intern/seqprefetch.c`)

A shallow embedding of the prefetch job of the sequencer and of the worker
loop that fills the frame cache ahead of the playhead.

Conventions of the embedding:

* C `int` values are `Int` (frame numbers stay far inside the 32-bit range,
  signed overflow is undefined in C and is not modelled);
* C `float` values (binary32) are rationals `ℚ`.  Comparison and truncation
  to `int` are exact in binary32 and are taken as they are.  The difference
  of two floats in `seq_prefetch_update_area` is rounded to binary32 by
  `float_round`.  An `int` is converted to `float` as it is, which is exact
  for magnitudes up to `2^24`; frame numbers stay far below.  The sums
  `cfra + num_frames_prefetched` of the worker loop are not rounded: binary32
  gives the same on whole frames below `2^24`, and the area starts on a whole
  frame from the first re-basing call that moves it;
* a pointer that may be `NULL` is an `Option`; dereferencing `NULL` makes the
  embedded function return `none`.
-/

namespace SeqPrefetch

/-- The fields of `struct PrefetchJob` that carry the prefetch area and the
control flags (`cfra` is a `float`, `num_frames_prefetched` an `int`). -/
structure PrefetchJob where
  cfra : ℚ
  num_frames_prefetched : Int
  running : Bool
  waiting : Bool
  stop : Bool
  deriving DecidableEq

/-- Conversion of a `float` value to `int` in C: truncation toward zero. -/
def float_to_int (x : ℚ) : Int :=
  Int.tdiv x.num (x.den : Int)

/-- Rounding to the nearest integer, a tie going to the even one. -/
def round_half_even (y : ℚ) : Int :=
  let f : Int := ⌊y⌋
  let r : ℚ := y - (f : ℚ)
  if r < 1 / 2 then f
  else if r > 1 / 2 then f + 1
  else if f % 2 = 0 then f
  else f + 1

/-- The binary32 value of an exact result `x`, as the `float` arithmetic of C
delivers it: `x` is rounded to 24 significant bits, to the nearest value and
to the even one on a tie; below `2^-126` the step is that of the subnormal
numbers.  Overflow to infinity, which starts at `2^128`, is left out. -/
def float_round (x : ℚ) : ℚ :=
  let e : Int := max (Int.log 2 |x|) (-126)
  let quantum : ℚ := (2 : ℚ) ^ (e - 23)
  (round_half_even (x / quantum) : ℚ) * quantum

/-- The function `seq_prefetch_update_area`, with `cfra` the value read from
`pfjob->scene->r.cfra`.  The two `if` statements run one after the other,
the second one on the job the first one left.  In `int delta = cfra -
pfjob->cfra` the difference is a `float`: it is rounded to binary32 and then
truncated. -/
def seq_prefetch_update_area (cfra : Int) (pfjob : PrefetchJob) : PrefetchJob :=
  /- rebase -/
  let pfjob1 : PrefetchJob :=
    if (cfra : ℚ) > pfjob.cfra then
      let delta : Int := float_to_int (float_round ((cfra : ℚ) - pfjob.cfra))
      let n : Int := pfjob.num_frames_prefetched - delta
      { pfjob with
        cfra := (cfra : ℚ)
        num_frames_prefetched := if n ≤ 1 then 1 else n }
    else pfjob
  /- reset -/
  if (cfra : ℚ) < pfjob1.cfra then
    { pfjob1 with cfra := (cfra : ℚ), num_frames_prefetched := 1 }
  else pfjob1

/-- The jobs seen along a sequence of re-basing calls: the job before the
first call, then the job after each call of `seq_prefetch_update_area` with
the live cursor values of `cursors`, in order. -/
def rebase_trace (pfjob : PrefetchJob) : List Int → List PrefetchJob
  | [] => [pfjob]
  | c :: cs => pfjob :: rebase_trace (seq_prefetch_update_area c pfjob) cs

/-! ## The data the prefetch code reads and writes -/

/-- The bits of `Editing.cache_flag` the prefetch code tests.  They are
declared in `DNA_sequence_types.h`, outside these sources, and are taken as
parameters: `SEQ_CACHE_ALL_TYPES` is the mask of the cache storage types. -/
structure SeqCacheFlags where
  SEQ_CACHE_PREFETCH_ENABLE : Nat
  SEQ_CACHE_ALL_TYPES : Nat
  SEQ_CACHE_VIEW_ENABLE : Nat

/-- The C test `flag & mask` used as a condition. -/
def flag_test (flag mask : Nat) : Bool :=
  (flag &&& mask) != 0

/-- The fields of `bScreen` read here: `animtimer` (is the pointer set) and
`scrubbing`. -/
structure bScreen where
  animtimer : Bool
  scrubbing : Bool

/-- The struct `Main`: the list `bmain->screens`. -/
structure Main where
  screens : List bScreen

/-- A strip: its `name`, the key of the lookup for the cache context, and
its channel `machine`, which stands for the rest of the struct and tells two
strips of one name apart. -/
structure Sequence where
  name : String
  machine : Int := 0
  deriving DecidableEq

/-- The struct `Editing`: the top-level strips `seqbase`, the strips of the
list `seqbasep` points to, `cache_flag` and the `prefetch_job` pointer. -/
structure Editing where
  seqbase : List Sequence
  seqbasep : List Sequence
  cache_flag : Nat
  prefetch_job : Option PrefetchJob

/-- The struct `RenderData`: the live current frame `cfra` and the end frame
`efra`. -/
structure RenderData where
  cfra : Int
  efra : Int

/-- The struct `Scene`: `r` and the `ed` pointer, `none` for a scene without
sequencer data. -/
structure Scene where
  r : RenderData
  ed : Option Editing

/-- The fields of `SeqRenderData` that `BKE_sequencer_prefetch_start` tests;
its `scene` and `bmain` are those of the `World` the call runs in. -/
structure SeqRenderData where
  is_prefetch_render : Bool
  is_proxy_render : Bool

/-- Where the worker thread stands in `seq_prefetch_frames`. -/
inductive WorkerPC
  /-- no thread was ever inserted -/
  | idle
  /-- before `pfjob->scene_eval->ed->prefetch_job = pfjob` -/
  | entry
  /-- at the condition of the outer `while` -/
  | loop_top
  /-- before `BKE_animsys_evaluate_all_animation` and the depsgraph update -/
  | evaluating
  /-- before `BKE_sequencer_give_ibuf` and the temp cache free -/
  | rendering
  /-- at the condition of the inner `while`, holding the suspend mutex -/
  | cache_check
  /-- inside `BLI_condition_wait` -/
  | blocked
  /-- back from `BLI_condition_wait`, before `seq_prefetch_update_area` -/
  | woken
  /-- at the "collision" test on `num_frames_prefetched` -/
  | throttle
  /-- at the test of `SEQ_CACHE_PREFETCH_ENABLE` and `stop` -/
  | enable_check
  /-- before the `seq_prefetch_update_area` that ends an iteration -/
  | rebase
  /-- before `pfjob->num_frames_prefetched++` -/
  | increment
  /-- after the outer loop, before `pfjob->running = false` -/
  | exit
  /-- the thread function has returned -/
  | done
  deriving DecidableEq

/-- Everything the two threads share, the answers of the cache, and a record
of what was done: the frames evaluated, rendered and freed from the temp
cache, the number of `PrefetchJob` allocations, the number of threads the
job's one-slot pool holds and the number of threads ever inserted. -/
structure World where
  bmain : Main
  scene : Scene
  /-- answer of `BKE_sequencer_cache_is_full` -/
  cache_is_full : Bool
  /-- answer of `BKE_sequencer_cache_recycle_item` -/
  cache_recycle_item : Bool
  pc : WorkerPC
  /-- is `scene_eval->ed->prefetch_job` set -/
  scene_eval_prefetch_job : Bool
  evaluated : List ℚ
  rendered : List ℚ
  temp_cache_freed : List ℚ
  jobs_allocated : Nat
  threads : Nat
  threads_inserted : Nat

/-- Write `ed->prefetch_job`; nothing to write without `ed`. -/
def Scene.set_prefetch_job (scene : Scene) (pfjob : Option PrefetchJob) : Scene :=
  match scene.ed with
  | some ed => { scene with ed := some { ed with prefetch_job := pfjob } }
  | none => scene

/-- Store the fields of the job `ed->prefetch_job` points to. -/
def World.set_job (w : World) (pfjob : PrefetchJob) : World :=
  { w with scene := w.scene.set_prefetch_job (some pfjob) }

/-! ## The functions of `seqprefetch.c` -/

/-- The function `seq_prefetch_is_playing`: some screen has an `animtimer`. -/
def seq_prefetch_is_playing (bmain : Main) : Bool :=
  bmain.screens.any (fun screen => screen.animtimer)

/-- The function `seq_prefetch_is_scrubbing`: some screen is `scrubbing`. -/
def seq_prefetch_is_scrubbing (bmain : Main) : Bool :=
  bmain.screens.any (fun screen => screen.scrubbing)

/-- The function `seq_prefetch_job_get`: `scene->ed->prefetch_job`, and `NULL`
without `ed`. -/
def seq_prefetch_job_get (scene : Scene) : Option PrefetchJob :=
  match scene.ed with
  | some ed => ed.prefetch_job
  | none => none

/-- The function `seq_prefetch_job_is_running`. -/
def seq_prefetch_job_is_running (scene : Scene) : Bool :=
  match seq_prefetch_job_get scene with
  | none => false
  | some pfjob => pfjob.running

/-- The function `seq_prefetch_job_is_waiting`. -/
def seq_prefetch_job_is_waiting (scene : Scene) : Bool :=
  match seq_prefetch_job_get scene with
  | none => false
  | some pfjob => pfjob.waiting

/-- The function `seq_prefetch_is_cache_full`, called by the worker on its
job's scene: the cache is full and no item of it could be recycled.  The
cache is asked to recycle only when it is full. -/
def seq_prefetch_is_cache_full (w : World) : Bool :=
  if !w.cache_is_full then false
  else w.cache_recycle_item == false

/-- The call `BLI_condition_notify_one` on `prefetch_suspend_cond`: a worker
inside `BLI_condition_wait` returns from it; the signal is lost otherwise. -/
def BLI_condition_notify_one (w : World) : World :=
  if w.pc = WorkerPC.blocked then { w with pc := WorkerPC.woken } else w

/-- The function `seq_prefetch_resume`: signal the condition when there is a
job and it is `waiting`. -/
def seq_prefetch_resume (w : World) : World :=
  match seq_prefetch_job_get w.scene with
  | some pfjob => if pfjob.waiting then BLI_condition_notify_one w else w
  | none => w

/-- The first statement of `BKE_sequencer_prefetch_stop`: `pfjob->stop = true`
when there is a job.  The loop that follows it signals the condition
(`BLI_condition_notify_one`) for as long as `running` is set. -/
def prefetch_stop_request (w : World) : World :=
  match seq_prefetch_job_get w.scene with
  | none => w
  | some pfjob => w.set_job { pfjob with stop := true }

/-- The function `seq_prefetch_start`.  The job is allocated zeroed, with an
empty pool, when the scene has `ed` and no job yet;
`seq_prefetch_update_context` dereferences the job, so the call has no
result (`none`) when there is still none.  The dependency graph and the two
render contexts that are rebuilt here are not part of the `World`.  The
single-slot pool is emptied (`BLI_threadpool_remove` joins the previous
thread) and one thread is inserted, which starts at the top of
`seq_prefetch_frames`. -/
def seq_prefetch_start (w : World) (cfra : ℚ) : Option World :=
  let w1 : World :=
    match seq_prefetch_job_get w.scene with
    | some _ => w
    | none =>
      match w.scene.ed with
      | some _ =>
        { (w.set_job (PrefetchJob.mk 0 0 false false false)) with
          jobs_allocated := w.jobs_allocated + 1
          threads := 0 }
      | none => w
  match seq_prefetch_job_get w1.scene with
  | none => none
  | some pfjob =>
    let w2 := w1.set_job
      { pfjob with
        cfra := cfra
        num_frames_prefetched := 1
        waiting := false
        stop := false
        running := true }
    some { w2 with
      threads := 0 + 1
      threads_inserted := w2.threads_inserted + 1
      pc := WorkerPC.entry }

/-- The condition under which `BKE_sequencer_prefetch_start` calls
`seq_prefetch_start`, for a context that is neither a prefetch nor a proxy
render; `has_strips` is `ed->seqbasep->first` being set, and the constant
`0.9` the cost is compared with is `9 / 10`. -/
def prefetch_start_condition (k : SeqCacheFlags) (ed : Editing)
    (playing scrubbing running : Bool) (cost : ℚ) : Bool :=
  flag_test ed.cache_flag k.SEQ_CACHE_PREFETCH_ENABLE && !running && !scrubbing &&
    !(playing && decide (cost > 9 / 10)) &&
    flag_test ed.cache_flag k.SEQ_CACHE_ALL_TYPES && !ed.seqbasep.isEmpty

/-- The function `BKE_sequencer_prefetch_start`.  `ed` is dereferenced first
(`ed->seqbasep->first`), so the call has no result for a scene without
`ed`. -/
def BKE_sequencer_prefetch_start (k : SeqCacheFlags) (context : SeqRenderData)
    (cfra cost : ℚ) (w : World) : Option World :=
  match w.scene.ed with
  | none => none
  | some ed =>
    if !context.is_prefetch_render && !context.is_proxy_render then
      let playing := seq_prefetch_is_playing w.bmain
      let scrubbing := seq_prefetch_is_scrubbing w.bmain
      let running := seq_prefetch_job_is_running w.scene
      let w1 := seq_prefetch_resume w
      if prefetch_start_condition k ed playing scrubbing running cost then
        seq_prefetch_start w1 cfra
      else some w1
    else some w

/-- The condition of the inner `while` of `seq_prefetch_frames`. -/
def suspend_condition (k : SeqCacheFlags) (w : World) (ed : Editing)
    (pfjob : PrefetchJob) : Bool :=
  (seq_prefetch_is_cache_full w || seq_prefetch_is_scrubbing w.bmain) &&
    flag_test ed.cache_flag k.SEQ_CACHE_PREFETCH_ENABLE && !pfjob.stop

/-- The test that ends the outer loop of `seq_prefetch_frames` to avoid
"collision" with the main thread. -/
def throttle_condition (w : World) (pfjob : PrefetchJob) : Bool :=
  decide (pfjob.num_frames_prefetched > 5) &&
    decide (pfjob.cfra + (pfjob.num_frames_prefetched : ℚ) - (w.scene.r.cfra : ℚ) < 2)

/-- One step of the thread that runs `seq_prefetch_frames`.  Leaving the
inner `while` and `pfjob->waiting = false` are one step, and so is all of
the code after the outer loop. -/
def seq_prefetch_frames_step (k : SeqCacheFlags) (w : World) : World :=
  match w.scene.ed with
  | none => w
  | some ed =>
    match ed.prefetch_job with
    | none => w
    | some pfjob =>
      let frame : ℚ := pfjob.cfra + (pfjob.num_frames_prefetched : ℚ)
      match w.pc with
      | WorkerPC.idle => w
      | WorkerPC.done => w
      | WorkerPC.blocked => w
      | WorkerPC.entry =>
        { w with scene_eval_prefetch_job := true, pc := WorkerPC.loop_top }
      | WorkerPC.loop_top =>
        if frame < (w.scene.r.efra : ℚ) then { w with pc := WorkerPC.evaluating }
        else { w with pc := WorkerPC.exit }
      | WorkerPC.evaluating =>
        { w with evaluated := w.evaluated ++ [frame], pc := WorkerPC.rendering }
      | WorkerPC.rendering =>
        { w with
          rendered := w.rendered ++ [frame]
          temp_cache_freed := w.temp_cache_freed ++ [frame]
          pc := WorkerPC.cache_check }
      | WorkerPC.cache_check =>
        if suspend_condition k w ed pfjob then
          { (w.set_job { pfjob with waiting := true }) with pc := WorkerPC.blocked }
        else
          { (w.set_job { pfjob with waiting := false }) with pc := WorkerPC.throttle }
      | WorkerPC.woken =>
        { (w.set_job (seq_prefetch_update_area w.scene.r.cfra pfjob)) with
          pc := WorkerPC.cache_check }
      | WorkerPC.throttle =>
        if throttle_condition w pfjob then { w with pc := WorkerPC.exit }
        else { w with pc := WorkerPC.enable_check }
      | WorkerPC.enable_check =>
        if !flag_test ed.cache_flag k.SEQ_CACHE_PREFETCH_ENABLE || pfjob.stop then
          { w with pc := WorkerPC.exit }
        else { w with pc := WorkerPC.rebase }
      | WorkerPC.rebase =>
        { (w.set_job (seq_prefetch_update_area w.scene.r.cfra pfjob)) with
          pc := WorkerPC.increment }
      | WorkerPC.increment =>
        { (w.set_job
            { pfjob with num_frames_prefetched := pfjob.num_frames_prefetched + 1 }) with
          pc := WorkerPC.loop_top }
      | WorkerPC.exit =>
        { (w.set_job { pfjob with running := false }) with
          temp_cache_freed := w.temp_cache_freed ++ [frame]
          scene_eval_prefetch_job := false
          pc := WorkerPC.done }

/-! ## The two threads and their surroundings as one machine -/

/-- What can happen next: a step of the worker thread, a change of the live
data the worker reads, or a call made by the main thread. -/
inductive Action
  /-- one step of `seq_prefetch_frames` -/
  | worker
  /-- the live cursor `scene->r.cfra` moves -/
  | cursor (cfra : Int)
  /-- the end frame `scene->r.efra` is edited -/
  | end_frame (efra : Int)
  /-- playback or scrubbing starts or ends on some screen -/
  | screens (l : List bScreen)
  /-- the cache fills up or frees up -/
  | cache (is_full recycle_item : Bool)
  /-- the flag word `ed->cache_flag` is edited -/
  | cache_flag (flag : Nat)
  /-- the statement `pfjob->stop = true` of `BKE_sequencer_prefetch_stop` -/
  | stop_request
  /-- a signal on `prefetch_suspend_cond` -/
  | notify
  /-- the main thread calls `BKE_sequencer_prefetch_start` -/
  | start (context : SeqRenderData) (cfra cost : ℚ)

/-- Is the action a step of the worker thread. -/
def Action.is_worker : Action → Bool
  | Action.worker => true
  | _ => false

/-- The effect of one action. -/
def perform (k : SeqCacheFlags) (a : Action) (w : World) : World :=
  match a with
  | Action.worker => seq_prefetch_frames_step k w
  | Action.cursor cfra => { w with scene := { w.scene with r := { w.scene.r with cfra := cfra } } }
  | Action.end_frame efra =>
    { w with scene := { w.scene with r := { w.scene.r with efra := efra } } }
  | Action.screens l => { w with bmain := { screens := l } }
  | Action.cache is_full recycle_item =>
    { w with cache_is_full := is_full, cache_recycle_item := recycle_item }
  | Action.cache_flag flag =>
    match w.scene.ed with
    | some ed => { w with scene := { w.scene with ed := some { ed with cache_flag := flag } } }
    | none => w
  | Action.stop_request => prefetch_stop_request w
  | Action.notify => BLI_condition_notify_one w
  | Action.start context cfra cost =>
    match BKE_sequencer_prefetch_start k context cfra cost w with
    | some w1 => w1
    | none => w

/-- The state after a sequence of actions. -/
def run (k : SeqCacheFlags) : List Action → World → World
  | [], w => w
  | a :: as, w => run k as (perform k a w)

/-- What holds of the job from `seq_prefetch_start` on: it exists, its area
has at least one frame, and `waiting` is set only around the wait. -/
def job_inv (w : World) : Prop :=
  ∃ pfjob, seq_prefetch_job_get w.scene = some pfjob ∧
    1 ≤ pfjob.num_frames_prefetched ∧
    (pfjob.waiting = true →
      w.pc = WorkerPC.cache_check ∨ w.pc = WorkerPC.blocked ∨ w.pc = WorkerPC.woken)

/-- The number of worker steps that remain, at most, from a place on the way
out of `seq_prefetch_frames` once `stop` is set. -/
def finish_rank : WorkerPC → Nat
  | WorkerPC.cache_check => 4
  | WorkerPC.throttle => 3
  | WorkerPC.enable_check => 2
  | WorkerPC.exit => 1
  | _ => 0

/-- The places on the way out of `seq_prefetch_frames`, with what holds of
the job there: `stop` is set where it is still tested, `waiting` is clear
before the inner `while`, `running` is clear once the thread has returned. -/
def finish_path (pc : WorkerPC) (pfjob : PrefetchJob) : Prop :=
  match pc with
  | WorkerPC.cache_check => pfjob.stop = true ∧ pfjob.waiting = false
  | WorkerPC.throttle => pfjob.stop = true
  | WorkerPC.enable_check => pfjob.stop = true
  | WorkerPC.exit => True
  | WorkerPC.done => pfjob.running = false
  | _ => False

/-- The worker is on its way out with at most `budget` steps to go, the
frames rendered and evaluated and the area of the job being as given; or a
new thread was inserted since (`n` threads had been inserted before). -/
def finishing (n : Nat) (R E : List ℚ) (C : ℚ) (N : Int) (W : Bool) (budget : Nat)
    (w : World) : Prop :=
  n < w.threads_inserted ∨
  (w.threads_inserted = n ∧ w.rendered = R ∧ w.evaluated = E ∧
    finish_rank w.pc ≤ budget ∧
    ∃ pfjob, seq_prefetch_job_get w.scene = some pfjob ∧
      pfjob.cfra = C ∧ pfjob.num_frames_prefetched = N ∧ pfjob.waiting = W ∧
      finish_path w.pc pfjob)

/-! ## The other entry points -/

/-- The loop of `BKE_sequencer_prefetch_stop`: for as long as `running` is
set the main thread signals the condition, and between two signals the
worker thread takes one step.  There is no result (`none`) when `fuel`
rounds do not end the loop. -/
def prefetch_stop_wait (k : SeqCacheFlags) : Nat → World → Option World
  | 0, w => if seq_prefetch_job_is_running w.scene then none else some w
  | fuel + 1, w =>
    if seq_prefetch_job_is_running w.scene then
      prefetch_stop_wait k fuel (seq_prefetch_frames_step k (BLI_condition_notify_one w))
    else some w

/-- The function `BKE_sequencer_prefetch_stop`: nothing without a job;
otherwise `stop` is set and the loop runs. -/
def BKE_sequencer_prefetch_stop (k : SeqCacheFlags) (fuel : Nat) (w : World) :
    Option World :=
  match seq_prefetch_job_get w.scene with
  | none => some w
  | some _ => prefetch_stop_wait k fuel (prefetch_stop_request w)

/-- The function `BKE_sequencer_prefetch_free`: nothing without a job;
otherwise the job is stopped, its thread is removed from the pool, the pool
is ended, the job is freed and `scene->ed->prefetch_job` is cleared. -/
def BKE_sequencer_prefetch_free (k : SeqCacheFlags) (fuel : Nat) (w : World) :
    Option World :=
  match seq_prefetch_job_get w.scene with
  | none => some w
  | some _ =>
    match BKE_sequencer_prefetch_stop k fuel w with
    | none => none
    | some w1 => some { w1 with scene := w1.scene.set_prefetch_job none, threads := 0 }

/-- The function `BKE_sequencer_prefetch_need_redraw`.  It reads `bmain` and
`scene` and gives back a truth value only.  In the first test
`scene->ed->cache_flag` is read only after `running && !playing &&
!suspended` has held; reading it without `ed` would leave no result. -/
def BKE_sequencer_prefetch_need_redraw (k : SeqCacheFlags) (bmain : Main) (scene : Scene) :
    Option Bool :=
  let playing := seq_prefetch_is_playing bmain
  let scrubbing := seq_prefetch_is_scrubbing bmain
  let running := seq_prefetch_job_is_running scene
  let suspended := seq_prefetch_job_is_waiting scene
  let after_first_test : Option Bool := if scrubbing then some true else some false
  /- force redraw, when prefetching and using cache view. -/
  if running && !playing && !suspended then
    match scene.ed with
    | none => none
    | some ed =>
      if flag_test ed.cache_flag k.SEQ_CACHE_VIEW_ENABLE then some true
      else after_first_test
  else after_first_test

/-- The loop of `BKE_sequencer_prefetch_get_original_sequence`: walk the list
from its first strip and stop at the first one whose name compares equal
(`strcmp`) to the name of `seq`; `NULL` at the end of the list. -/
def original_sequence_scan (seq : Sequence) : List Sequence → Option Sequence
  | [] => none
  | seq_orig :: rest =>
    if seq.name = seq_orig.name then some seq_orig
    else original_sequence_scan seq rest

/-- The function `BKE_sequencer_prefetch_get_original_sequence`: the scan of
`scene->ed->seqbase`.  The list is reached through `scene->ed`, so the call
has no result (outer `none`) for a scene without `ed`. -/
def BKE_sequencer_prefetch_get_original_sequence (seq : Sequence) (scene : Scene) :
    Option (Option Sequence) :=
  match scene.ed with
  | none => none
  | some ed => some (original_sequence_scan seq ed.seqbase)

/-! ## Sample data -/

/-- Sample flag bits: one bit for prefetching, four for the storage types,
one for the cache view. -/
def sample_flags : SeqCacheFlags :=
  { SEQ_CACHE_PREFETCH_ENABLE := 1024
    SEQ_CACHE_ALL_TYPES := 15
    SEQ_CACHE_VIEW_ENABLE := 128 }

/-- A world with `screens` and `cache_flag` as given: a scene at frame `5`
of `250` with one strip, no job yet, no thread yet. -/
def sample_world (screens : List bScreen) (cache_flag : Nat) : World :=
  { bmain := { screens := screens }
    scene :=
      { r := { cfra := 5, efra := 250 }
        ed := some
          { seqbase := [{ name := "SQstrip" }]
            seqbasep := [{ name := "SQstrip" }]
            cache_flag := cache_flag
            prefetch_job := none } }
    cache_is_full := false
    cache_recycle_item := false
    pc := WorkerPC.idle
    scene_eval_prefetch_job := false
    evaluated := []
    rendered := []
    temp_cache_freed := []
    jobs_allocated := 0
    threads := 0
    threads_inserted := 0 }

/-- An ordinary render context: neither a prefetch nor a proxy render. -/
def plain_context : SeqRenderData :=
  { is_prefetch_render := false, is_proxy_render := false }

/-- The world `sample_world [⟨false, false⟩] 1032` after a first call of
`BKE_sequencer_prefetch_start` at frame `5`: the job is allocated and
running and the worker thread is at its entry. -/
def sample_started_world : World :=
  { bmain := { screens := [⟨false, false⟩] }
    scene :=
      { r := { cfra := 5, efra := 250 }
        ed := some
          { seqbase := [{ name := "SQstrip" }]
            seqbasep := [{ name := "SQstrip" }]
            cache_flag := 1032
            prefetch_job := some (PrefetchJob.mk 5 1 true false false) } }
    cache_is_full := false
    cache_recycle_item := false
    pc := WorkerPC.entry
    scene_eval_prefetch_job := false
    evaluated := []
    rendered := []
    temp_cache_freed := []
    jobs_allocated := 1
    threads := 1
    threads_inserted := 1 }

/-- A world in the middle of a run: the worker at `pc`, the live cursor at
`cursor`, the cache full or not (and never recycling an item), the job as
given, on the scene of `sample_started_world`. -/
def sample_worker_world (pc : WorkerPC) (cursor : Int) (is_full : Bool)
    (pfjob : PrefetchJob) : World :=
  { bmain := { screens := [⟨false, false⟩] }
    scene :=
      { r := { cfra := cursor, efra := 250 }
        ed := some
          { seqbase := [{ name := "SQstrip" }]
            seqbasep := [{ name := "SQstrip" }]
            cache_flag := 1032
            prefetch_job := some pfjob } }
    cache_is_full := is_full
    cache_recycle_item := false
    pc := pc
    scene_eval_prefetch_job := true
    evaluated := []
    rendered := []
    temp_cache_freed := []
    jobs_allocated := 1
    threads := 1
    threads_inserted := 1 }

/-- A worker past the cache check with seven frames prefetched from frame
`5` while the live cursor is at frame `11`. -/
def sample_throttle_world : World :=
  sample_worker_world WorkerPC.throttle 11 false (PrefetchJob.mk 5 7 true false false)

/-- A worker at the cache check, with a full cache that recycles nothing. -/
def sample_full_world : World :=
  sample_worker_world WorkerPC.cache_check 5 true (PrefetchJob.mk 5 2 true false false)

/-- The world `sample_started_world` after the worker has entered the loop
and evaluated frame `6`, a stop request having come in between: the worker
is rendering and `stop` is set. -/
def sample_cancel_world : World :=
  { sample_worker_world WorkerPC.rendering 5 false (PrefetchJob.mk 5 1 true false true) with
    evaluated := [6] }

/-- The world `sample_world [⟨false, false⟩] 1032` with a scene that has no
sequencer data: `scene->ed` is `NULL`. -/
def sample_no_editing_world : World :=
  { sample_world [⟨false, false⟩] 1032 with
    scene := { r := { cfra := 5, efra := 250 }, ed := none } }

/-- A scene with three top-level strips, two of which share a name. -/
def sample_lookup_scene : Scene :=
  { r := { cfra := 5, efra := 250 }
    ed := some
      { seqbase :=
          [{ name := "SQintro", machine := 1 }, { name := "SQtitle", machine := 2 },
            { name := "SQtitle", machine := 3 }]
        seqbasep := []
        cache_flag := 1032
        prefetch_job := none } }

/-! ## Facts about the conversion and about one re-basing call -/

theorem float_to_int_intCast (n : Int) : float_to_int (n : ℚ) = n := by
  simp [float_to_int]

theorem float_to_int_nonneg {x : ℚ} (hx : 0 ≤ x) : 0 ≤ float_to_int x := by
  unfold float_to_int
  apply Int.tdiv_nonneg
  · exact Rat.num_nonneg.mpr hx
  · exact Int.ofNat_nonneg _

theorem round_half_even_intCast (m : Int) : round_half_even (m : ℚ) = m := by
  simp [round_half_even]

theorem round_half_even_nonneg {y : ℚ} (hy : 0 ≤ y) : 0 ≤ round_half_even y := by
  have hf : (0 : Int) ≤ ⌊y⌋ := Int.floor_nonneg.mpr hy
  unfold round_half_even
  simp only
  split
  · exact hf
  · split
    · omega
    · split
      · exact hf
      · omega

theorem float_round_nonneg {x : ℚ} (hx : 0 ≤ x) : 0 ≤ float_round x := by
  unfold float_round
  simp only
  have hq : (0 : ℚ) < (2 : ℚ) ^ (max (Int.log 2 |x|) (-126) - 23) := zpow_pos (by norm_num) _
  have h1 : 0 ≤ round_half_even (x / (2 : ℚ) ^ (max (Int.log 2 |x|) (-126) - 23)) :=
    round_half_even_nonneg (div_nonneg hx (le_of_lt hq))
  exact mul_nonneg (by exact_mod_cast h1) (le_of_lt hq)

/-- One rounding, for a value whose binade `e` and rounded significand `n`
are known. -/
theorem float_round_eval (x : ℚ) (e n : Int) (hlo : (2 : ℚ) ^ e ≤ |x|)
    (hhi : |x| < (2 : ℚ) ^ (e + 1)) (he : -126 ≤ e)
    (hn : round_half_even (x / (2 : ℚ) ^ (e - 23)) = n) :
    float_round x = (n : ℚ) * (2 : ℚ) ^ (e - 23) := by
  have hpos : (0 : ℚ) < |x| := lt_of_lt_of_le (zpow_pos (by norm_num) e) hlo
  have hlog : Int.log 2 |x| = e := by
    apply le_antisymm
    · have := (Int.lt_zpow_iff_log_lt (b := 2) (by norm_num) hpos (x := e + 1)).mp
        (by exact_mod_cast hhi)
      omega
    · exact (Int.zpow_le_iff_le_log (b := 2) (by norm_num) hpos).mp (by exact_mod_cast hlo)
  unfold float_round
  simp only [hlog, max_eq_left he, hn]


/-- A value that is a whole multiple of the step of its binade is kept. -/
theorem float_round_of_multiple (x : ℚ) (n : Int)
    (h : x = (n : ℚ) * (2 : ℚ) ^ (max (Int.log 2 |x|) (-126) - 23)) :
    float_round x = x := by
  have hq : (2 : ℚ) ^ (max (Int.log 2 |x|) (-126) - 23) ≠ 0 :=
    zpow_ne_zero _ (by norm_num)
  have hdiv : x / (2 : ℚ) ^ (max (Int.log 2 |x|) (-126) - 23) = (n : ℚ) := by
    rw [div_eq_iff hq]
    exact h
  unfold float_round
  simp only [hdiv, round_half_even_intCast]
  exact h.symm

/-- A value with a significand below `2^24` and a step of at least `2^-149` is
a binary32 value and is kept. -/
theorem float_round_exact (m : Int) (k : Nat) (hm : |m| < 2 ^ 24) (hk : k ≤ 149) :
    float_round ((m : ℚ) / 2 ^ k) = (m : ℚ) / 2 ^ k := by
  by_cases h0 : m = 0
  · subst h0
    simp [float_round, round_half_even]
  · have hk0 : (0 : ℚ) < 2 ^ k := pow_pos (by norm_num) k
    have hx : (0 : ℚ) < |(m : ℚ) / 2 ^ k| := by
      rw [abs_pos]
      exact div_ne_zero (by exact_mod_cast h0) (ne_of_gt hk0)
    have hlt : |(m : ℚ) / 2 ^ k| < (2 : ℚ) ^ ((24 : Int) - (k : Int)) := by
      rw [abs_div, abs_of_pos hk0, zpow_sub₀ (by norm_num), zpow_natCast]
      apply div_lt_div_of_pos_right _ hk0
      have : ((|m| : Int) : ℚ) < ((2 ^ 24 : Int) : ℚ) := by exact_mod_cast hm
      push_cast at this
      norm_num
      exact this
    have hlog : Int.log 2 |(m : ℚ) / 2 ^ k| < 24 - (k : Int) :=
      (Int.lt_zpow_iff_log_lt (b := 2) (by norm_num) hx).mp (by exact_mod_cast hlt)
    obtain ⟨j, hj⟩ : ∃ j : Nat,
        max (Int.log 2 |(m : ℚ) / 2 ^ k|) (-126) - 23 = -(k : Int) - (j : Int) := by
      refine ⟨(23 - (k : Int) - max (Int.log 2 |(m : ℚ) / 2 ^ k|) (-126)).toNat, ?_⟩
      have : max (Int.log 2 |(m : ℚ) / 2 ^ k|) (-126) ≤ 23 - (k : Int) := by
        apply max_le
        · omega
        · omega
      omega
    apply float_round_of_multiple _ (m * 2 ^ j)
    rw [hj, zpow_sub₀ (by norm_num), zpow_neg, zpow_natCast, zpow_natCast]
    have hj0 : (2 : ℚ) ^ j ≠ 0 := pow_ne_zero _ (by norm_num)
    push_cast
    field_simp
    ring

/-- Whole numbers below `2^24` are binary32 values. -/
theorem float_round_intCast (n : Int) (hn : |n| < 2 ^ 24) : float_round (n : ℚ) = n := by
  have := float_round_exact n 0 hn (by norm_num)
  simpa using this

theorem update_area_forward (cfra : Int) (pfjob : PrefetchJob)
    (h : (cfra : ℚ) > pfjob.cfra) :
    seq_prefetch_update_area cfra pfjob =
      { pfjob with
        cfra := (cfra : ℚ)
        num_frames_prefetched :=
          max 1 (pfjob.num_frames_prefetched
            - float_to_int (float_round ((cfra : ℚ) - pfjob.cfra))) } := by
  unfold seq_prefetch_update_area
  simp only [h, if_true, gt_iff_lt, lt_self_iff_false, if_false]
  by_cases hn :
      pfjob.num_frames_prefetched - float_to_int (float_round ((cfra : ℚ) - pfjob.cfra)) ≤ 1
  · simp [hn]
  · have : 1 ≤
        pfjob.num_frames_prefetched - float_to_int (float_round ((cfra : ℚ) - pfjob.cfra)) := by
      omega
    simp [hn, this]

theorem update_area_backward (cfra : Int) (pfjob : PrefetchJob)
    (h : (cfra : ℚ) < pfjob.cfra) :
    seq_prefetch_update_area cfra pfjob =
      { pfjob with cfra := (cfra : ℚ), num_frames_prefetched := 1 } := by
  unfold seq_prefetch_update_area
  have h2 : ¬ ((cfra : ℚ) > pfjob.cfra) := not_lt.mpr (le_of_lt h)
  simp [h, h2]

theorem update_area_same (cfra : Int) (pfjob : PrefetchJob)
    (h : (cfra : ℚ) = pfjob.cfra) :
    seq_prefetch_update_area cfra pfjob = pfjob := by
  unfold seq_prefetch_update_area
  simp [h]

/-- One re-basing call keeps `running`, `waiting` and `stop`. -/
theorem update_area_flags (cfra : Int) (pfjob : PrefetchJob) :
    (seq_prefetch_update_area cfra pfjob).running = pfjob.running ∧
    (seq_prefetch_update_area cfra pfjob).waiting = pfjob.waiting ∧
    (seq_prefetch_update_area cfra pfjob).stop = pfjob.stop := by
  rcases lt_trichotomy (cfra : ℚ) pfjob.cfra with h | h | h
  · rw [update_area_backward cfra pfjob h]; exact ⟨rfl, rfl, rfl⟩
  · rw [update_area_same cfra pfjob h]; exact ⟨rfl, rfl, rfl⟩
  · rw [update_area_forward cfra pfjob h]; exact ⟨rfl, rfl, rfl⟩

/-- One re-basing call leaves at least one frame in the area. -/
theorem update_area_ge_one (cfra : Int) (pfjob : PrefetchJob)
    (h1 : 1 ≤ pfjob.num_frames_prefetched) :
    1 ≤ (seq_prefetch_update_area cfra pfjob).num_frames_prefetched := by
  rcases lt_trichotomy (cfra : ℚ) pfjob.cfra with h | h | h
  · rw [update_area_backward cfra pfjob h]
  · rw [update_area_same cfra pfjob h]; exact h1
  · rw [update_area_forward cfra pfjob h]; exact le_max_left _ _

/-- One re-basing call of an area of at least one frame does not widen it. -/
theorem update_area_le (cfra : Int) (pfjob : PrefetchJob)
    (h1 : 1 ≤ pfjob.num_frames_prefetched) :
    (seq_prefetch_update_area cfra pfjob).num_frames_prefetched
      ≤ pfjob.num_frames_prefetched := by
  rcases lt_trichotomy (cfra : ℚ) pfjob.cfra with h | h | h
  · rw [update_area_backward cfra pfjob h]; exact h1
  · rw [update_area_same cfra pfjob h]
  · rw [update_area_forward cfra pfjob h]
    have hd : 0 ≤ float_to_int (float_round ((cfra : ℚ) - pfjob.cfra)) :=
      float_to_int_nonneg (float_round_nonneg (le_of_lt (sub_pos.mpr h)))
    show max 1 (pfjob.num_frames_prefetched
        - float_to_int (float_round ((cfra : ℚ) - pfjob.cfra)))
      ≤ pfjob.num_frames_prefetched
    exact max_le h1 (by omega)

/-! ## The re-basing claims -/

/-- C1 (backward-seek reset): when the live cursor is before the start of
the tracked area, `seq_prefetch_update_area` leaves exactly the area
`(cursor, 1)` and touches nothing else of the job. -/
theorem backward_seek_reset (pfjob : PrefetchJob) (cursor : Int)
    (h : (cursor : ℚ) < pfjob.cfra) :
    seq_prefetch_update_area cursor pfjob =
      { pfjob with cfra := (cursor : ℚ), num_frames_prefetched := 1 } :=
  update_area_backward cursor pfjob h

/-- Witness of C1: the area `(10, 6)` re-based with cursor `3` is `(3, 1)`. -/
theorem backward_seek_reset_witness :
    ((3 : Int) : ℚ) < (PrefetchJob.mk 10 6 true false false).cfra ∧
    seq_prefetch_update_area 3 (PrefetchJob.mk 10 6 true false false) =
      PrefetchJob.mk 3 1 true false false :=
  ⟨by norm_num, by
    rw [backward_seek_reset (PrefetchJob.mk 10 6 true false false) 3 (by norm_num)]
    norm_num⟩

/-- C2 as stated fails when the area starts on a fractional frame: the area
`(10.5, 6)` re-based with cursor `14` becomes `(14, 3)`, because the delta
`3.5` is truncated to the `int` `3`, while `max(1, 6 - (14 - 10.5))` is
`2.5`. -/
theorem forward_catch_up_counterexample :
    ((14 : Int) : ℚ) > (PrefetchJob.mk (21 / 2) 6 true false false).cfra ∧
    seq_prefetch_update_area 14 (PrefetchJob.mk (21 / 2) 6 true false false) =
      PrefetchJob.mk 14 3 true false false ∧
    (((seq_prefetch_update_area 14
        (PrefetchJob.mk (21 / 2) 6 true false false)).num_frames_prefetched : Int) : ℚ)
      ≠ max 1 ((6 : ℚ) - (((14 : Int) : ℚ) - 21 / 2)) := by
  have e : seq_prefetch_update_area 14 (PrefetchJob.mk (21 / 2) 6 true false false) =
      PrefetchJob.mk 14 3 true false false := by
    rw [update_area_forward 14 _ (by norm_num)]
    have hr : float_round (((14 : Int) : ℚ) - 21 / 2) = 7 / 2 := by
      have h7 := float_round_exact 7 1 (by norm_num) (by norm_num)
      norm_num at h7 ⊢
      exact h7
    have hd : float_to_int ((7 : ℚ) / 2) = 3 := by
      norm_num [float_to_int]
      decide
    simp only [hr, hd]
    norm_num
  refine ⟨by norm_num, e, ?_⟩
  rw [e]
  norm_num

/-- C2 (forward catch-up), amended: for frame numbers within `2^24`, where
an `int` is a `float` as it is, when the live cursor is past the start of
the tracked area `seq_prefetch_update_area` leaves the area
`(cursor, max(1, ahead - delta))`, where `delta` is the binary32 difference
`cursor - start` truncated to an `int`; for an area that starts on a whole
frame `s` less than `2^24` frames back this is
`(cursor, max(1, ahead - (cursor - s)))`. -/
theorem forward_catch_up (pfjob : PrefetchJob) (cursor : Int)
    (_hrange : |cursor| ≤ 2 ^ 24)
    (h : (cursor : ℚ) > pfjob.cfra) :
    seq_prefetch_update_area cursor pfjob =
      { pfjob with
        cfra := (cursor : ℚ)
        num_frames_prefetched :=
          max 1 (pfjob.num_frames_prefetched
            - float_to_int (float_round ((cursor : ℚ) - pfjob.cfra))) } ∧
    ∀ s : Int, pfjob.cfra = (s : ℚ) → cursor - s < 2 ^ 24 →
      seq_prefetch_update_area cursor pfjob =
        { pfjob with
          cfra := (cursor : ℚ)
          num_frames_prefetched :=
            max 1 (pfjob.num_frames_prefetched - (cursor - s)) } := by
  refine ⟨update_area_forward cursor pfjob h, ?_⟩
  intro s hs hlt
  have hpos : 0 < cursor - s := by
    have : (s : ℚ) < (cursor : ℚ) := by rw [← hs]; exact h
    have : s < cursor := by exact_mod_cast this
    omega
  rw [update_area_forward cursor pfjob h, hs]
  have e : ((cursor : ℚ) - (s : ℚ)) = (((cursor - s : Int)) : ℚ) := by push_cast; ring
  rw [e, float_round_intCast (cursor - s) (by rw [abs_of_pos hpos]; exact hlt),
    float_to_int_intCast]

/-- Witness of the amended C2: the area `(10, 6)` re-based with cursor `14`
is `(14, 2)`; and the area `(1 + 2^-23, 10)` re-based with cursor `9` is
`(9, 2)`, the difference `8 - 2^-23` being rounded to the float `8`. -/
theorem forward_catch_up_witness :
    (|(14 : Int)| ≤ 2 ^ 24 ∧
      ((14 : Int) : ℚ) > (PrefetchJob.mk 10 6 true false false).cfra ∧
      seq_prefetch_update_area 14 (PrefetchJob.mk 10 6 true false false) =
        PrefetchJob.mk 14 2 true false false) ∧
    (|(9 : Int)| ≤ 2 ^ 24 ∧
      ((9 : Int) : ℚ) > (PrefetchJob.mk (8388609 / 8388608) 10 true false false).cfra ∧
      seq_prefetch_update_area 9 (PrefetchJob.mk (8388609 / 8388608) 10 true false false) =
        PrefetchJob.mk 9 2 true false false) := by
  refine ⟨⟨by decide, by norm_num, ?_⟩, ⟨by decide, by norm_num, ?_⟩⟩
  · rw [(forward_catch_up (PrefetchJob.mk 10 6 true false false) 14 (by decide)
      (by norm_num)).2 10 (by norm_num) (by norm_num)]
    norm_num
  · rw [(forward_catch_up (PrefetchJob.mk (8388609 / 8388608) 10 true false false) 9
      (by decide) (by norm_num)).1]
    have hr : float_round (((9 : Int) : ℚ) - 8388609 / 8388608) = 8 := by
      have hx : ((9 : Int) : ℚ) - 8388609 / 8388608 = 67108863 / 8388608 := by norm_num
      rw [hx, float_round_eval (67108863 / 8388608) 2 16777216
        (by norm_num [abs_of_pos]) (by norm_num [abs_of_pos]) (by norm_num) (by
          have hf : ⌊((67108863 : ℚ) / 8388608 / 2 ^ ((2 : Int) - 23))⌋ = 16777215 := by
            rw [Int.floor_eq_iff]
            norm_num
          simp only [round_half_even, hf]
          norm_num)]
      norm_num
    have hd : float_to_int (8 : ℚ) = 8 := by
      norm_num [float_to_int]
    simp only [hr, hd]
    norm_num

/-- C3 as stated fails for an area of zero frames: the area `(10, 0)`
re-based with the one cursor value `11` becomes `(11, 1)`, so
`num_frames_prefetched` grows from `0` to `1`. -/
theorem window_monotonicity_counterexample :
    0 ≤ (PrefetchJob.mk 10 0 true false false).num_frames_prefetched ∧
    List.Chain' (fun a b : Int => a ≤ b) [11] ∧
    ¬ List.Chain' (fun a b : PrefetchJob => b.num_frames_prefetched ≤ a.num_frames_prefetched)
        (rebase_trace (PrefetchJob.mk 10 0 true false false) [11]) := by
  have e : seq_prefetch_update_area 11 (PrefetchJob.mk 10 0 true false false) =
      PrefetchJob.mk 11 1 true false false := by
    rw [update_area_forward 11 _ (by norm_num)]
    have hr : float_round (((11 : Int) : ℚ) - 10) = 1 := by
      have h1 := float_round_intCast 1 (by norm_num)
      norm_num at h1 ⊢
      exact h1
    have hd : float_to_int (1 : ℚ) = 1 := by
      norm_num [float_to_int]
    simp only [hr, hd]
    norm_num
  refine ⟨le_refl _, by simp, ?_⟩
  simp [rebase_trace, e]

/-- C3 (window monotonicity), amended: from an area of at least one frame,
along every sequence of re-basing calls with non-decreasing cursor values,
`num_frames_prefetched` after each call is at most its value before that
call. -/
theorem window_monotonicity (pfjob : PrefetchJob) (cursors : List Int)
    (h1 : 1 ≤ pfjob.num_frames_prefetched)
    (_hc : List.Chain' (fun a b : Int => a ≤ b) cursors) :
    List.Chain' (fun a b : PrefetchJob => b.num_frames_prefetched ≤ a.num_frames_prefetched)
      (rebase_trace pfjob cursors) := by
  clear _hc
  induction cursors generalizing pfjob with
  | nil => simp [rebase_trace]
  | cons c cs ih =>
    have ih1 := ih (seq_prefetch_update_area c pfjob) (update_area_ge_one c pfjob h1)
    rw [rebase_trace]
    cases cs with
    | nil =>
      simp only [rebase_trace, List.chain'_cons, List.chain'_singleton, and_true]
      exact update_area_le c pfjob h1
    | cons d ds =>
      rw [rebase_trace] at ih1 ⊢
      rw [List.chain'_cons]
      exact ⟨update_area_le c pfjob h1, ih1⟩

/-- Witness of the amended C3: the area `(10, 6)` re-based with the cursor
values `10, 12, 12, 15`. -/
theorem window_monotonicity_witness :
    List.Chain' (fun a b : PrefetchJob => b.num_frames_prefetched ≤ a.num_frames_prefetched)
      (rebase_trace (PrefetchJob.mk 10 6 true false false) [10, 12, 12, 15]) :=
  window_monotonicity (PrefetchJob.mk 10 6 true false false) [10, 12, 12, 15]
    (by decide) (by simp)

/-! ## Facts about the calls of the main thread -/

theorem notify_fields (w : World) :
    (BLI_condition_notify_one w).scene = w.scene ∧
    (BLI_condition_notify_one w).bmain = w.bmain ∧
    (BLI_condition_notify_one w).threads = w.threads ∧
    (BLI_condition_notify_one w).threads_inserted = w.threads_inserted ∧
    (BLI_condition_notify_one w).jobs_allocated = w.jobs_allocated ∧
    (BLI_condition_notify_one w).rendered = w.rendered ∧
    (BLI_condition_notify_one w).evaluated = w.evaluated := by
  unfold BLI_condition_notify_one
  split <;> simp

theorem resume_fields (w : World) :
    (seq_prefetch_resume w).scene = w.scene ∧
    (seq_prefetch_resume w).bmain = w.bmain ∧
    (seq_prefetch_resume w).threads = w.threads ∧
    (seq_prefetch_resume w).threads_inserted = w.threads_inserted ∧
    (seq_prefetch_resume w).jobs_allocated = w.jobs_allocated ∧
    (seq_prefetch_resume w).rendered = w.rendered ∧
    (seq_prefetch_resume w).evaluated = w.evaluated := by
  unfold seq_prefetch_resume
  split
  · split
    · exact notify_fields w
    · simp
  · simp

/-- A signal moves the worker only out of `BLI_condition_wait`. -/
theorem notify_pc (w : World) (h : w.pc ≠ WorkerPC.blocked) :
    BLI_condition_notify_one w = w := by
  unfold BLI_condition_notify_one
  simp [h]

theorem resume_not_blocked (w : World) (h : w.pc ≠ WorkerPC.blocked) :
    seq_prefetch_resume w = w := by
  unfold seq_prefetch_resume
  split
  · split
    · exact notify_pc w h
    · rfl
  · rfl

theorem resume_not_waiting (w : World) (h : seq_prefetch_job_is_waiting w.scene = false) :
    seq_prefetch_resume w = w := by
  unfold seq_prefetch_resume
  unfold seq_prefetch_job_is_waiting at h
  split
  · rename_i pfjob hj
    rw [hj] at h
    simp only at h
    simp [h]
  · rfl

/-- The function `BKE_sequencer_prefetch_start` on a scene that has `ed`. -/
theorem prefetch_start_unfold (k : SeqCacheFlags) (context : SeqRenderData) (cfra cost : ℚ)
    (w : World) (ed : Editing) (hed : w.scene.ed = some ed) :
    BKE_sequencer_prefetch_start k context cfra cost w =
      if !context.is_prefetch_render && !context.is_proxy_render then
        if prefetch_start_condition k ed (seq_prefetch_is_playing w.bmain)
            (seq_prefetch_is_scrubbing w.bmain) (seq_prefetch_job_is_running w.scene) cost then
          seq_prefetch_start (seq_prefetch_resume w) cfra
        else some (seq_prefetch_resume w)
      else some w := by
  unfold BKE_sequencer_prefetch_start
  rw [hed]

/-- The function `seq_prefetch_start` on a scene that has `ed`: the job is there
afterwards with the area `(cfra, 1)`, `running` set, `waiting` and `stop`
cleared, and the pool holds the one thread just inserted. -/
theorem seq_prefetch_start_some (w : World) (cfra : ℚ) (ed : Editing)
    (hed : w.scene.ed = some ed) :
    ∃ w1, seq_prefetch_start w cfra = some w1 ∧
      w1.scene.r = w.scene.r ∧ w1.bmain = w.bmain ∧
      w1.scene.ed = some { ed with prefetch_job := some (PrefetchJob.mk cfra 1 true false false) } ∧
      w1.threads = 1 ∧
      w1.threads_inserted = w.threads_inserted + 1 ∧
      w1.jobs_allocated = w.jobs_allocated + (if ed.prefetch_job.isSome then 0 else 1) ∧
      w1.pc = WorkerPC.entry ∧
      w1.rendered = w.rendered ∧ w1.evaluated = w.evaluated := by
  unfold seq_prefetch_start
  cases hj : ed.prefetch_job with
  | none =>
    simp [seq_prefetch_job_get, hed, hj, World.set_job, Scene.set_prefetch_job]
  | some pfjob =>
    simp [seq_prefetch_job_get, hed, hj, World.set_job, Scene.set_prefetch_job]

/-- A call of `BKE_sequencer_prefetch_start` whose start condition fails, or
whose context is a prefetch or proxy render, does `seq_prefetch_resume` at
most. -/
theorem prefetch_start_skipped (k : SeqCacheFlags) (context : SeqRenderData) (cfra cost : ℚ)
    (w : World) (ed : Editing) (hed : w.scene.ed = some ed)
    (hc : prefetch_start_condition k ed (seq_prefetch_is_playing w.bmain)
      (seq_prefetch_is_scrubbing w.bmain) (seq_prefetch_job_is_running w.scene) cost
      = false) :
    ∃ w1, BKE_sequencer_prefetch_start k context cfra cost w = some w1 ∧
      w1 = (if !context.is_prefetch_render && !context.is_proxy_render
        then seq_prefetch_resume w else w) ∧
      w1.scene = w.scene ∧
      w1.threads_inserted = w.threads_inserted ∧
      w1.threads = w.threads ∧
      w1.jobs_allocated = w.jobs_allocated := by
  rw [prefetch_start_unfold k context cfra cost w ed hed, hc]
  have hr := resume_fields w
  by_cases hctx : (!context.is_prefetch_render && !context.is_proxy_render) = true
  · simp only [hctx, if_true, Bool.false_eq_true, if_false]
    exact ⟨_, rfl, rfl, hr.1, hr.2.2.2.1, hr.2.2.1, hr.2.2.2.2.1⟩
  · simp only [hctx, if_false]
    exact ⟨_, rfl, rfl, rfl, rfl, rfl, rfl⟩

/-- A running job fails the start condition. -/
theorem start_condition_running (k : SeqCacheFlags) (ed : Editing)
    (playing scrubbing : Bool) (cost : ℚ) :
    prefetch_start_condition k ed playing scrubbing true cost = false := by
  simp [prefetch_start_condition]

/-! ## The claims about `BKE_sequencer_prefetch_start` -/

/-- C5 as stated fails for playback alone: with playback running on a screen
and a cost of `0`, a call on a scene with prefetching and the cache enabled,
a strip and no job allocates the job and inserts a thread. -/
theorem start_disqualified_counterexample :
    seq_prefetch_is_playing (sample_world [⟨true, false⟩] 1032).bmain = true ∧
    seq_prefetch_job_get (sample_world [⟨true, false⟩] 1032).scene = none ∧
    (sample_world [⟨true, false⟩] 1032).threads_inserted = 0 ∧
    ∃ w1, BKE_sequencer_prefetch_start sample_flags plain_context 5 0
        (sample_world [⟨true, false⟩] 1032) = some w1 ∧
      seq_prefetch_job_get w1.scene = some (PrefetchJob.mk 5 1 true false false) ∧
      w1.threads_inserted = 1 ∧ w1.pc = WorkerPC.entry := by
  have h9 : (0 : ℚ) ≤ 9 / 10 := by norm_num
  simp [BKE_sequencer_prefetch_start, sample_world, sample_flags, plain_context,
    prefetch_start_condition, flag_test, seq_prefetch_start, seq_prefetch_resume,
    seq_prefetch_job_get, seq_prefetch_is_playing, seq_prefetch_is_scrubbing,
    seq_prefetch_job_is_running, World.set_job, Scene.set_prefetch_job, h9]

/-- C5, amended: a call of `BKE_sequencer_prefetch_start` on a scene that
has `ed`, made while prefetching is disabled, a screen is scrubbing, the job
is running, playback runs with a cost above `0.9`, no cache storage type is
enabled or the edited strip list is empty, starts no worker and allocates no
job; the scene, with the job's area and flags, is unchanged, and the call
does nothing but `seq_prefetch_resume` (nothing at all for a prefetch or
proxy render context).  Playback with a cost of at most `0.9` does not
disqualify. -/
theorem start_disqualified (k : SeqCacheFlags) (context : SeqRenderData) (cfra cost : ℚ)
    (w : World) (ed : Editing) (hed : w.scene.ed = some ed)
    (h : flag_test ed.cache_flag k.SEQ_CACHE_PREFETCH_ENABLE = false ∨
      seq_prefetch_is_scrubbing w.bmain = true ∨
      seq_prefetch_job_is_running w.scene = true ∨
      (seq_prefetch_is_playing w.bmain = true ∧ cost > 9 / 10) ∨
      flag_test ed.cache_flag k.SEQ_CACHE_ALL_TYPES = false ∨
      ed.seqbasep = []) :
    ∃ w1, BKE_sequencer_prefetch_start k context cfra cost w = some w1 ∧
      w1 = (if !context.is_prefetch_render && !context.is_proxy_render
        then seq_prefetch_resume w else w) ∧
      w1.scene = w.scene ∧
      w1.threads_inserted = w.threads_inserted ∧
      w1.threads = w.threads ∧
      w1.jobs_allocated = w.jobs_allocated := by
  have hc : prefetch_start_condition k ed (seq_prefetch_is_playing w.bmain)
      (seq_prefetch_is_scrubbing w.bmain) (seq_prefetch_job_is_running w.scene) cost
      = false := by
    unfold prefetch_start_condition
    rcases h with h | h | h | ⟨h, h2⟩ | h | h
    · simp [h]
    · simp [h]
    · simp [h]
    · simp [h, h2]
    · simp [h]
    · simp [h]
  exact prefetch_start_skipped k context cfra cost w ed hed hc

/-- Witness of the amended C5: a call while a screen is scrubbing. -/
theorem start_disqualified_witness :
    ∃ w1, BKE_sequencer_prefetch_start sample_flags plain_context 5 0
        (sample_world [⟨false, true⟩] 1032) = some w1 ∧
      w1 = (if !plain_context.is_prefetch_render && !plain_context.is_proxy_render
        then seq_prefetch_resume (sample_world [⟨false, true⟩] 1032)
        else sample_world [⟨false, true⟩] 1032) ∧
      w1.scene = (sample_world [⟨false, true⟩] 1032).scene ∧
      w1.threads_inserted = (sample_world [⟨false, true⟩] 1032).threads_inserted ∧
      w1.threads = (sample_world [⟨false, true⟩] 1032).threads ∧
      w1.jobs_allocated = (sample_world [⟨false, true⟩] 1032).jobs_allocated :=
  start_disqualified sample_flags plain_context 5 0 (sample_world [⟨false, true⟩] 1032)
    { seqbase := [{ name := "SQstrip" }]
      seqbasep := [{ name := "SQstrip" }]
      cache_flag := 1032
      prefetch_job := none } rfl (Or.inr (Or.inl (by decide)))

/-- C6 as stated fails in two ways.  With no playback, no scrubbing, no
running job, a cache storage type enabled and a strip, but the prefetch bit
of `cache_flag` clear, the call creates no job and inserts no thread.  And
with that bit set as well, a call from a proxy render context creates no job
and inserts no thread either. -/
theorem start_qualified_counterexample :
    (seq_prefetch_is_playing (sample_world [⟨false, false⟩] 8).bmain = false ∧
      seq_prefetch_is_scrubbing (sample_world [⟨false, false⟩] 8).bmain = false ∧
      seq_prefetch_job_is_running (sample_world [⟨false, false⟩] 8).scene = false ∧
      flag_test 8 sample_flags.SEQ_CACHE_ALL_TYPES = true ∧
      (∃ ed, (sample_world [⟨false, false⟩] 8).scene.ed = some ed ∧ ed.seqbasep ≠ []) ∧
      ∃ w1, BKE_sequencer_prefetch_start sample_flags plain_context 5 0
          (sample_world [⟨false, false⟩] 8) = some w1 ∧
        seq_prefetch_job_get w1.scene = none ∧
        w1.threads_inserted = 0) ∧
    (seq_prefetch_is_playing (sample_world [⟨false, false⟩] 1032).bmain = false ∧
      seq_prefetch_is_scrubbing (sample_world [⟨false, false⟩] 1032).bmain = false ∧
      seq_prefetch_job_is_running (sample_world [⟨false, false⟩] 1032).scene = false ∧
      flag_test 1032 sample_flags.SEQ_CACHE_ALL_TYPES = true ∧
      flag_test 1032 sample_flags.SEQ_CACHE_PREFETCH_ENABLE = true ∧
      (∃ ed, (sample_world [⟨false, false⟩] 1032).scene.ed = some ed ∧ ed.seqbasep ≠ []) ∧
      ∃ w1, BKE_sequencer_prefetch_start sample_flags
          { is_prefetch_render := false, is_proxy_render := true } 5 0
          (sample_world [⟨false, false⟩] 1032) = some w1 ∧
        seq_prefetch_job_get w1.scene = none ∧
        w1.threads_inserted = 0) := by
  have h9 : (0 : ℚ) ≤ 9 / 10 := by norm_num
  have e1 : (8 &&& 1024 : Nat) = 0 := by decide
  have e2 : (8 &&& 15 : Nat) = 8 := by decide
  have e3 : (1032 &&& 1024 : Nat) = 1024 := by decide
  have e4 : (1032 &&& 15 : Nat) = 8 := by decide
  constructor
  · simp [BKE_sequencer_prefetch_start, sample_world, sample_flags, plain_context,
      prefetch_start_condition, flag_test, seq_prefetch_start, seq_prefetch_resume,
      seq_prefetch_job_get, seq_prefetch_is_playing, seq_prefetch_is_scrubbing,
      seq_prefetch_job_is_running, World.set_job, Scene.set_prefetch_job, h9, e1, e2]
  · simp [BKE_sequencer_prefetch_start, sample_world, sample_flags,
      flag_test, seq_prefetch_job_get, seq_prefetch_is_playing, seq_prefetch_is_scrubbing,
      seq_prefetch_job_is_running, e3, e4]

/-- C6, amended: a call of `BKE_sequencer_prefetch_start` with frame `cfra`,
from a context that is neither a prefetch nor a proxy render, on a scene
with prefetching enabled, a cache storage type enabled and a strip to
render, while no job is running, no screen is scrubbing and playback is not
running with a cost above `0.9`, leaves the job in place (allocated if there
was none) with the area `(cfra, 1)`, `stop` and `waiting` cleared and
`running` set, and inserts exactly one thread into the emptied pool. -/
theorem start_qualified (k : SeqCacheFlags) (context : SeqRenderData) (cfra cost : ℚ)
    (w : World) (ed : Editing) (hed : w.scene.ed = some ed)
    (hctx1 : context.is_prefetch_render = false) (hctx2 : context.is_proxy_render = false)
    (hen : flag_test ed.cache_flag k.SEQ_CACHE_PREFETCH_ENABLE = true)
    (hrun : seq_prefetch_job_is_running w.scene = false)
    (hscrub : seq_prefetch_is_scrubbing w.bmain = false)
    (hplay : ¬ (seq_prefetch_is_playing w.bmain = true ∧ cost > 9 / 10))
    (hcache : flag_test ed.cache_flag k.SEQ_CACHE_ALL_TYPES = true)
    (hstrips : ed.seqbasep ≠ []) :
    ∃ w1, BKE_sequencer_prefetch_start k context cfra cost w = some w1 ∧
      seq_prefetch_job_get w1.scene = some (PrefetchJob.mk cfra 1 true false false) ∧
      w1.threads_inserted = w.threads_inserted + 1 ∧
      w1.threads = 1 ∧
      w1.pc = WorkerPC.entry ∧
      w1.jobs_allocated = w.jobs_allocated + (if ed.prefetch_job.isSome then 0 else 1) := by
  have hc : prefetch_start_condition k ed (seq_prefetch_is_playing w.bmain)
      (seq_prefetch_is_scrubbing w.bmain) (seq_prefetch_job_is_running w.scene) cost
      = true := by
    unfold prefetch_start_condition
    have hp : (seq_prefetch_is_playing w.bmain && decide (cost > 9 / 10)) = false := by
      by_cases hp1 : seq_prefetch_is_playing w.bmain = true
      · have : ¬ cost > 9 / 10 := fun hcost => hplay ⟨hp1, hcost⟩
        simp [this]
      · simp [hp1]
    simp [hen, hrun, hscrub, hp, hcache, hstrips]
  rw [prefetch_start_unfold k context cfra cost w ed hed, hc]
  simp only [hctx1, hctx2, Bool.not_false, Bool.and_self, if_true]
  have hr := resume_fields w
  obtain ⟨w1, h1, _, _, h4, h5, h6, h7, h8, _⟩ :=
    seq_prefetch_start_some (seq_prefetch_resume w) cfra ed (by rw [hr.1]; exact hed)
  refine ⟨w1, h1, ?_, ?_, h5, h8, ?_⟩
  · simp [seq_prefetch_job_get, h4]
  · rw [h6, hr.2.2.2.1]
  · rw [h7, hr.2.2.2.2.1]

/-- Witness of the amended C6: the first call on a scene with one strip. -/
theorem start_qualified_witness :
    ∃ w1, BKE_sequencer_prefetch_start sample_flags plain_context 5 0
        (sample_world [⟨false, false⟩] 1032) = some w1 ∧
      seq_prefetch_job_get w1.scene = some (PrefetchJob.mk 5 1 true false false) ∧
      w1.threads_inserted = (sample_world [⟨false, false⟩] 1032).threads_inserted + 1 ∧
      w1.threads = 1 ∧
      w1.pc = WorkerPC.entry ∧
      w1.jobs_allocated = (sample_world [⟨false, false⟩] 1032).jobs_allocated + 1 :=
  start_qualified sample_flags plain_context 5 0 (sample_world [⟨false, false⟩] 1032)
    { seqbase := [{ name := "SQstrip" }]
      seqbasep := [{ name := "SQstrip" }]
      cache_flag := 1032
      prefetch_job := none } rfl rfl rfl (by decide) (by decide) (by decide)
    (by simp [sample_world, seq_prefetch_is_playing]) (by decide) (by simp)

/-- C7 as stated fails when the first call starts nothing: during playback a
first call with cost `1` leaves the scene without a job, and a second call
with cost `0` then allocates the job and inserts a thread, so the state
after the two calls is not the state after the first. -/
theorem start_twice_counterexample :
    ∃ w1 w2,
      BKE_sequencer_prefetch_start sample_flags plain_context 5 1
        (sample_world [⟨true, false⟩] 1032) = some w1 ∧
      BKE_sequencer_prefetch_start sample_flags plain_context 5 0 w1 = some w2 ∧
      seq_prefetch_job_get w1.scene = none ∧ w1.threads_inserted = 0 ∧
      seq_prefetch_job_get w2.scene = some (PrefetchJob.mk 5 1 true false false) ∧
      w2.threads_inserted = 1 := by
  have h9 : (0 : ℚ) ≤ 9 / 10 := by norm_num
  have h1 : (9 / 10 : ℚ) < 1 := by norm_num
  refine ⟨sample_world [⟨true, false⟩] 1032, ?_⟩
  simp [BKE_sequencer_prefetch_start, sample_world, sample_flags, plain_context,
    prefetch_start_condition, flag_test, seq_prefetch_start, seq_prefetch_resume,
    seq_prefetch_job_get, seq_prefetch_is_playing, seq_prefetch_is_scrubbing,
    seq_prefetch_job_is_running, World.set_job, Scene.set_prefetch_job, h9, h1]

/-- C7, amended: when the job is running after a call of
`BKE_sequencer_prefetch_start` (the call started the worker, or one was
running already), a second call right after it, whatever its arguments,
allocates no job and inserts no thread, and leaves the scene with the job's
area and flags as the first call left them; when the first call is the one
that inserted the thread, the pool holds exactly that one thread and the
second call changes nothing at all. -/
theorem start_twice (k : SeqCacheFlags) (context1 context2 : SeqRenderData)
    (cfra1 cost1 cfra2 cost2 : ℚ) (w w1 : World)
    (h1 : BKE_sequencer_prefetch_start k context1 cfra1 cost1 w = some w1)
    (hrun : seq_prefetch_job_is_running w1.scene = true) :
    ∃ w2, BKE_sequencer_prefetch_start k context2 cfra2 cost2 w1 = some w2 ∧
      w2.scene = w1.scene ∧
      (seq_prefetch_job_get w2.scene).isSome = true ∧
      w2.jobs_allocated = w1.jobs_allocated ∧
      w2.threads_inserted = w1.threads_inserted ∧
      w2.threads = w1.threads ∧
      (w1.threads_inserted ≠ w.threads_inserted →
        w1.threads = 1 ∧ w1.threads_inserted = w.threads_inserted + 1 ∧ w2 = w1) := by
  /- the second call finds the job running -/
  have hjob : (seq_prefetch_job_get w1.scene).isSome = true := by
    unfold seq_prefetch_job_is_running at hrun
    cases hj : seq_prefetch_job_get w1.scene with
    | none => rw [hj] at hrun; simp at hrun
    | some j => rfl
  obtain ⟨ed1, hed1⟩ : ∃ ed1, w1.scene.ed = some ed1 := by
    unfold seq_prefetch_job_get at hjob
    cases he : w1.scene.ed with
    | none => rw [he] at hjob; simp at hjob
    | some ed1 => exact ⟨ed1, rfl⟩
  obtain ⟨w2, h2, h2eq, h2s, h2i, h2t, h2a⟩ :=
    prefetch_start_skipped k context2 cfra2 cost2 w1 ed1 hed1
      (by rw [hrun]; exact start_condition_running k ed1 _ _ cost2)
  refine ⟨w2, h2, h2s, by rw [h2s]; exact hjob, h2a, h2i, h2t, ?_⟩
  /- the first call -/
  intro hne
  cases hed : w.scene.ed with
  | none =>
    unfold BKE_sequencer_prefetch_start at h1
    rw [hed] at h1
    simp at h1
  | some ed =>
    rw [prefetch_start_unfold k context1 cfra1 cost1 w ed hed] at h1
    have hr := resume_fields w
    by_cases hctx : (!context1.is_prefetch_render && !context1.is_proxy_render) = true
    · simp only [hctx, if_true] at h1
      by_cases hc : prefetch_start_condition k ed (seq_prefetch_is_playing w.bmain)
          (seq_prefetch_is_scrubbing w.bmain) (seq_prefetch_job_is_running w.scene) cost1 = true
      · simp only [hc, if_true] at h1
        obtain ⟨w1s, hs, _, _, hs4, hs5, hs6, _, hs8, _⟩ :=
          seq_prefetch_start_some (seq_prefetch_resume w) cfra1 ed (by rw [hr.1]; exact hed)
        rw [hs] at h1
        have hw : w1s = w1 := by simpa using h1
        subst hw
        refine ⟨hs5, by rw [hs6, hr.2.2.2.1], ?_⟩
        have hwait : seq_prefetch_job_is_waiting w1s.scene = false := by
          simp [seq_prefetch_job_is_waiting, seq_prefetch_job_get, hs4]
        rw [h2eq]
        split
        · exact resume_not_waiting w1s hwait
        · rfl
      · simp only [hc, if_false] at h1
        have hw : seq_prefetch_resume w = w1 := by simpa using h1
        subst hw
        exact absurd hr.2.2.2.1 hne
    · simp only [hctx, if_false] at h1
      have hw : w = w1 := by simpa using h1
      subst hw
      exact absurd rfl hne

/-- Witness of the amended C7: two calls in a row on a scene with one
strip. -/
theorem start_twice_witness :
    BKE_sequencer_prefetch_start sample_flags plain_context 5 0
      (sample_world [⟨false, false⟩] 1032) = some sample_started_world ∧
    seq_prefetch_job_is_running sample_started_world.scene = true ∧
    ∃ w2, BKE_sequencer_prefetch_start sample_flags plain_context 7 0
        sample_started_world = some w2 ∧
      w2.scene = sample_started_world.scene ∧
      (seq_prefetch_job_get w2.scene).isSome = true ∧
      w2.jobs_allocated = sample_started_world.jobs_allocated ∧
      w2.threads_inserted = sample_started_world.threads_inserted ∧
      w2.threads = sample_started_world.threads ∧
      (sample_started_world.threads_inserted
          ≠ (sample_world [⟨false, false⟩] 1032).threads_inserted →
        sample_started_world.threads = 1 ∧
        sample_started_world.threads_inserted
          = (sample_world [⟨false, false⟩] 1032).threads_inserted + 1 ∧
        w2 = sample_started_world) := by
  have hfirst : BKE_sequencer_prefetch_start sample_flags plain_context 5 0
      (sample_world [⟨false, false⟩] 1032) = some sample_started_world := by
    simp [BKE_sequencer_prefetch_start, sample_world, sample_started_world, sample_flags,
      plain_context, prefetch_start_condition, flag_test, seq_prefetch_start,
      seq_prefetch_resume, seq_prefetch_job_get, seq_prefetch_is_playing,
      seq_prefetch_is_scrubbing, seq_prefetch_job_is_running, World.set_job,
      Scene.set_prefetch_job]
  exact ⟨hfirst, rfl,
    start_twice sample_flags plain_context plain_context 5 0 7 0
      (sample_world [⟨false, false⟩] 1032) sample_started_world hfirst rfl⟩

/-! ## Facts about the machine -/

theorem job_get_ed {scene : Scene} {pfjob : PrefetchJob}
    (h : seq_prefetch_job_get scene = some pfjob) :
    ∃ ed, scene.ed = some ed ∧ ed.prefetch_job = some pfjob := by
  unfold seq_prefetch_job_get at h
  cases he : scene.ed with
  | none => rw [he] at h; simp at h
  | some ed => rw [he] at h; exact ⟨ed, rfl, h⟩

theorem set_job_get (w : World) (pfjob : PrefetchJob) (ed : Editing)
    (hed : w.scene.ed = some ed) :
    seq_prefetch_job_get (w.set_job pfjob).scene = some pfjob := by
  simp [World.set_job, Scene.set_prefetch_job, seq_prefetch_job_get, hed]

theorem set_job_ed (w : World) (pfjob : PrefetchJob) (ed : Editing)
    (hed : w.scene.ed = some ed) :
    (w.set_job pfjob).scene.ed = some { ed with prefetch_job := some pfjob } := by
  simp [World.set_job, Scene.set_prefetch_job, hed]

theorem set_job_fields (w : World) (pfjob : PrefetchJob) :
    (w.set_job pfjob).pc = w.pc ∧ (w.set_job pfjob).bmain = w.bmain ∧
    (w.set_job pfjob).scene.r = w.scene.r ∧
    (w.set_job pfjob).rendered = w.rendered ∧ (w.set_job pfjob).evaluated = w.evaluated ∧
    (w.set_job pfjob).threads_inserted = w.threads_inserted ∧
    (w.set_job pfjob).threads = w.threads ∧
    (w.set_job pfjob).jobs_allocated = w.jobs_allocated := by
  unfold World.set_job Scene.set_prefetch_job
  cases w.scene.ed <;> simp

theorem job_inv_step (k : SeqCacheFlags) (w : World) (h : job_inv w) :
    job_inv (seq_prefetch_frames_step k w) := by
  obtain ⟨pfjob, hjob, hn, hw⟩ := h
  obtain ⟨ed, hed, hj⟩ := job_get_ed hjob
  have hge := update_area_ge_one w.scene.r.cfra pfjob hn
  have hfl := update_area_flags w.scene.r.cfra pfjob
  unfold seq_prefetch_frames_step
  simp only [hed, hj]
  cases hpc : w.pc <;> simp only [hpc] at hw ⊢
  case idle => exact ⟨pfjob, hjob, hn, by simpa [hpc] using hw⟩
  case done => exact ⟨pfjob, hjob, hn, by simpa [hpc] using hw⟩
  case blocked => exact ⟨pfjob, hjob, hn, by simp [hpc]⟩
  case entry => exact ⟨pfjob, hjob, hn, by simpa using hw⟩
  case loop_top =>
    split
    · exact ⟨pfjob, hjob, hn, by simpa using hw⟩
    · exact ⟨pfjob, hjob, hn, by simpa using hw⟩
  case evaluating => exact ⟨pfjob, hjob, hn, by simpa using hw⟩
  case rendering => exact ⟨pfjob, hjob, hn, by simp⟩
  case cache_check =>
    split
    · exact ⟨_, set_job_get w _ ed hed, hn, by simp⟩
    · exact ⟨_, set_job_get w _ ed hed, hn, by simp⟩
  case woken => exact ⟨_, set_job_get w _ ed hed, hge, by simp⟩
  case throttle =>
    split
    · exact ⟨pfjob, hjob, hn, by simpa using hw⟩
    · exact ⟨pfjob, hjob, hn, by simpa using hw⟩
  case enable_check =>
    split
    · exact ⟨pfjob, hjob, hn, by simpa using hw⟩
    · exact ⟨pfjob, hjob, hn, by simpa using hw⟩
  case rebase =>
    refine ⟨_, set_job_get w _ ed hed, hge, ?_⟩
    rw [hfl.2.1]
    simpa using hw
  case increment =>
    refine ⟨_, set_job_get w _ ed hed, ?_, ?_⟩
    · show 1 ≤ pfjob.num_frames_prefetched + 1
      omega
    · simpa using hw
  case exit =>
    refine ⟨_, set_job_get w _ ed hed, hn, ?_⟩
    simpa using hw


theorem resume_pc (w : World) :
    (seq_prefetch_resume w).pc = w.pc ∨
    (w.pc = WorkerPC.blocked ∧ (seq_prefetch_resume w).pc = WorkerPC.woken) := by
  by_cases h : w.pc = WorkerPC.blocked
  · unfold seq_prefetch_resume
    split
    · split
      · right; exact ⟨h, by simp [BLI_condition_notify_one, h]⟩
      · left; rfl
    · left; rfl
  · left; rw [resume_not_blocked w h]

theorem job_inv_pc (w w1 : World) (h : job_inv w) (hs : w1.scene = w.scene)
    (hpc : w1.pc = w.pc ∨ (w.pc = WorkerPC.blocked ∧ w1.pc = WorkerPC.woken)) :
    job_inv w1 := by
  obtain ⟨pfjob, hjob, hn, hw⟩ := h
  refine ⟨pfjob, by rw [hs]; exact hjob, hn, ?_⟩
  intro hwait
  rcases hpc with hpc | ⟨_, hpc⟩
  · rw [hpc]; exact hw hwait
  · right; right; exact hpc

theorem job_inv_start (w w1 : World) (cfra : ℚ) (h : seq_prefetch_start w cfra = some w1) :
    job_inv w1 := by
  cases hed : w.scene.ed with
  | none =>
    unfold seq_prefetch_start at h
    simp [seq_prefetch_job_get, hed] at h
  | some ed =>
    obtain ⟨w2, h2, _, _, h4, _⟩ := seq_prefetch_start_some w cfra ed hed
    rw [h] at h2
    have e : w1 = w2 := by simpa using h2
    subst e
    exact ⟨PrefetchJob.mk cfra 1 true false false, by simp [seq_prefetch_job_get, h4],
      le_refl _, by simp⟩

theorem job_inv_perform (k : SeqCacheFlags) (a : Action) (w : World) (h : job_inv w) :
    job_inv (perform k a w) := by
  cases a with
  | worker => exact job_inv_step k w h
  | cursor cfra =>
    obtain ⟨pfjob, hjob, hn, hw⟩ := h
    exact ⟨pfjob, by simpa [perform, seq_prefetch_job_get] using hjob, hn, hw⟩
  | end_frame efra =>
    obtain ⟨pfjob, hjob, hn, hw⟩ := h
    exact ⟨pfjob, by simpa [perform, seq_prefetch_job_get] using hjob, hn, hw⟩
  | screens l => exact job_inv_pc w _ h rfl (Or.inl rfl)
  | cache f r => exact job_inv_pc w _ h rfl (Or.inl rfl)
  | cache_flag flag =>
    obtain ⟨pfjob, hjob, hn, hw⟩ := h
    obtain ⟨ed, hed, hj⟩ := job_get_ed hjob
    exact ⟨pfjob, by simp [perform, seq_prefetch_job_get, hed, hj], hn,
      by simpa [perform, hed] using hw⟩
  | stop_request =>
    obtain ⟨pfjob, hjob, hn, hw⟩ := h
    obtain ⟨ed, hed, hj⟩ := job_get_ed hjob
    refine ⟨{ pfjob with stop := true }, ?_, hn, ?_⟩
    · simp only [perform, prefetch_stop_request, hjob]
      exact set_job_get w _ ed hed
    · simp only [perform, prefetch_stop_request, hjob, (set_job_fields w _).1]
      exact hw
  | notify =>
    refine job_inv_pc w _ h (notify_fields w).1 ?_
    show (BLI_condition_notify_one w).pc = w.pc ∨ _ ∧ (BLI_condition_notify_one w).pc = _
    by_cases hb : w.pc = WorkerPC.blocked
    · right; exact ⟨hb, by simp [BLI_condition_notify_one, hb]⟩
    · left; rw [notify_pc w hb]
  | start context cfra cost =>
    simp only [perform]
    cases hr : BKE_sequencer_prefetch_start k context cfra cost w with
    | none => exact h
    | some w1 =>
      simp only
      obtain ⟨pfjob, hjob, _, _⟩ := h
      obtain ⟨ed, hed, _⟩ := job_get_ed hjob
      rw [prefetch_start_unfold k context cfra cost w ed hed] at hr
      have h' : job_inv w := ⟨pfjob, hjob, ‹_›, ‹_›⟩
      have hres : job_inv (seq_prefetch_resume w) :=
        job_inv_pc w _ h' (resume_fields w).1 (resume_pc w)
      split at hr
      · split at hr
        · exact job_inv_start _ _ cfra hr
        · have e : seq_prefetch_resume w = w1 := by simpa using hr
          rw [← e]; exact hres
      · have e : w = w1 := by simpa using hr
        rw [← e]; exact h'

theorem job_inv_run (k : SeqCacheFlags) (acts : List Action) (w : World) (h : job_inv w) :
    job_inv (run k acts w) := by
  induction acts generalizing w with
  | nil => exact h
  | cons a as ih => exact ih _ (job_inv_perform k a w h)

theorem step_fields (k : SeqCacheFlags) (w : World) :
    (seq_prefetch_frames_step k w).threads_inserted = w.threads_inserted ∧
    (seq_prefetch_frames_step k w).threads = w.threads ∧
    (seq_prefetch_frames_step k w).jobs_allocated = w.jobs_allocated ∧
    (seq_prefetch_frames_step k w).bmain = w.bmain ∧
    (seq_prefetch_frames_step k w).scene.r = w.scene.r := by
  cases hed : w.scene.ed with
  | none => simp [seq_prefetch_frames_step, hed]
  | some ed =>
    cases hj : ed.prefetch_job with
    | none => simp [seq_prefetch_frames_step, hed, hj]
    | some pfjob =>
      unfold seq_prefetch_frames_step
      simp only [hed, hj]
      cases hpc : w.pc <;> simp only <;> (try split) <;>
        simp [(set_job_fields w _)]

/-- No action takes a thread back: the count of inserted threads only
grows. -/
theorem perform_threads_inserted (k : SeqCacheFlags) (a : Action) (w : World) :
    w.threads_inserted ≤ (perform k a w).threads_inserted := by
  cases a with
  | worker => exact le_of_eq (step_fields k w).1.symm
  | cursor cfra => exact le_refl _
  | end_frame efra => exact le_refl _
  | screens l => exact le_refl _
  | cache f r => exact le_refl _
  | cache_flag flag =>
    simp only [perform]
    split <;> exact le_refl _
  | stop_request =>
    simp only [perform, prefetch_stop_request]
    split
    · exact le_refl _
    · rw [(set_job_fields w _).2.2.2.2.2.1]
  | notify => exact le_of_eq (notify_fields w).2.2.2.1.symm
  | start context cfra cost =>
    simp only [perform]
    cases hr : BKE_sequencer_prefetch_start k context cfra cost w with
    | none => exact le_refl _
    | some w1 =>
      simp only
      cases hed : w.scene.ed with
      | none =>
        unfold BKE_sequencer_prefetch_start at hr
        rw [hed] at hr
        simp at hr
      | some ed =>
        rw [prefetch_start_unfold k context cfra cost w ed hed] at hr
        have hres := resume_fields w
        split at hr
        · split at hr
          · obtain ⟨w2, h2, _, _, _, _, h6, _⟩ :=
              seq_prefetch_start_some (seq_prefetch_resume w) cfra ed
                (by rw [hres.1]; exact hed)
            rw [hr] at h2
            have e : w1 = w2 := by simpa using h2
            rw [e, h6, hres.2.2.2.1]
            omega
          · have e : seq_prefetch_resume w = w1 := by simpa using hr
            rw [← e, hres.2.2.2.1]
        · have e : w = w1 := by simpa using hr
          rw [← e]

/-- An action that keeps the counts, the place of the worker and the job,
or only sets `stop`, keeps the worker on its way out. -/
theorem finishing_of_same (n : Nat) (R E : List ℚ) (C : ℚ) (N : Int) (W : Bool)
    (budget : Nat) (w w1 : World) (h : finishing n R E C N W budget w)
    (hti : w1.threads_inserted = w.threads_inserted) (hR : w1.rendered = w.rendered)
    (hE : w1.evaluated = w.evaluated) (hpc : w1.pc = w.pc)
    (hjob : seq_prefetch_job_get w1.scene = seq_prefetch_job_get w.scene ∨
      ∃ pfjob, seq_prefetch_job_get w.scene = some pfjob ∧
        seq_prefetch_job_get w1.scene = some { pfjob with stop := true }) :
    finishing n R E C N W budget w1 := by
  rcases h with h | ⟨h1, h2, h3, h4, pfjob, h5, h6, h7, h8, h9⟩
  · left; rw [hti]; exact h
  · right
    refine ⟨by rw [hti, h1], by rw [hR, h2], by rw [hE, h3], by rw [hpc]; exact h4, ?_⟩
    rcases hjob with hjob | ⟨pfjob1, hj1, hj2⟩
    · exact ⟨pfjob, by rw [hjob]; exact h5, h6, h7, h8, by rw [hpc]; exact h9⟩
    · rw [h5] at hj1
      have e : pfjob = pfjob1 := by simpa using hj1
      subst e
      refine ⟨_, hj2, h6, h7, h8, ?_⟩
      rw [hpc]
      revert h9
      unfold finish_path
      cases w.pc <;> simp

theorem finishing_step (k : SeqCacheFlags) (n : Nat) (R E : List ℚ) (C : ℚ) (N : Int)
    (W : Bool) (budget : Nat) (w : World) (h : finishing n R E C N W budget w) :
    finishing n R E C N W (budget - 1) (seq_prefetch_frames_step k w) := by
  rcases h with h | ⟨h1, h2, h3, h4, pfjob, h5, h6, h7, h8, h9⟩
  · left; rw [(step_fields k w).1]; exact h
  · right
    obtain ⟨ed, hed, hj⟩ := job_get_ed h5
    unfold seq_prefetch_frames_step
    simp only [hed, hj]
    cases hpc : w.pc <;> simp only [hpc, finish_path, finish_rank] at h4 h9 ⊢
    case cache_check =>
      have hs : suspend_condition k w ed pfjob = false := by
        simp [suspend_condition, h9.1]
      simp only [hs, Bool.false_eq_true, if_false]
      refine ⟨by rw [(set_job_fields w _).2.2.2.2.2.1]; exact h1,
        by rw [(set_job_fields w _).2.2.2.1]; exact h2,
        by rw [(set_job_fields w _).2.2.2.2.1]; exact h3, by omega,
        _, set_job_get w _ ed hed, h6, h7, ?_, h9.1⟩
      rw [← h8, h9.2]
    case throttle =>
      split
      · exact ⟨h1, h2, h3, by first | omega | (simp only [finish_rank]; omega), pfjob, h5, h6, h7, h8, trivial⟩
      · exact ⟨h1, h2, h3, by first | omega | (simp only [finish_rank]; omega), pfjob, h5, h6, h7, h8, h9⟩
    case enable_check =>
      simp only [h9, Bool.or_true, if_true]
      exact ⟨h1, h2, h3, by omega, pfjob, h5, h6, h7, h8, trivial⟩
    case exit =>
      refine ⟨by rw [(set_job_fields w _).2.2.2.2.2.1]; exact h1,
        by rw [(set_job_fields w _).2.2.2.1]; exact h2,
        by rw [(set_job_fields w _).2.2.2.2.1]; exact h3, by simp [finish_rank],
        _, set_job_get w _ ed hed, h6, h7, h8, rfl⟩
    case done =>
      exact ⟨h1, h2, h3, by simp [hpc, finish_rank], pfjob, h5, h6, h7, h8,
        by simpa [hpc, finish_path] using h9⟩

/-- On the way out the worker is not inside `BLI_condition_wait`. -/
theorem finish_path_not_blocked (pc : WorkerPC) (pfjob : PrefetchJob)
    (h : finish_path pc pfjob) : pc ≠ WorkerPC.blocked := by
  intro hb
  rw [hb] at h
  exact h

theorem finishing_perform (k : SeqCacheFlags) (a : Action) (n : Nat) (R E : List ℚ) (C : ℚ)
    (N : Int) (W : Bool) (budget : Nat) (w : World) (h : finishing n R E C N W budget w) :
    finishing n R E C N W (budget - (if a.is_worker = true then 1 else 0))
      (perform k a w) := by
  rcases h with h | ⟨h1, h2, h3, h4, pfjob, h5, h6, h7, h8, h9⟩
  · left; exact lt_of_lt_of_le h (perform_threads_inserted k a w)
  · have h' : finishing n R E C N W budget w :=
      Or.inr ⟨h1, h2, h3, h4, pfjob, h5, h6, h7, h8, h9⟩
    have hnb : w.pc ≠ WorkerPC.blocked := finish_path_not_blocked _ _ h9
    obtain ⟨ed, hed, hj⟩ := job_get_ed h5
    cases a with
    | worker => exact finishing_step k n R E C N W budget w h'
    | cursor cfra =>
      exact finishing_of_same n R E C N W budget w _ h' rfl rfl rfl rfl (Or.inl rfl)
    | end_frame efra =>
      exact finishing_of_same n R E C N W budget w _ h' rfl rfl rfl rfl (Or.inl rfl)
    | screens l =>
      exact finishing_of_same n R E C N W budget w _ h' rfl rfl rfl rfl (Or.inl rfl)
    | cache f r =>
      exact finishing_of_same n R E C N W budget w _ h' rfl rfl rfl rfl (Or.inl rfl)
    | cache_flag flag =>
      refine finishing_of_same n R E C N W budget w _ h' ?_ ?_ ?_ ?_ (Or.inl ?_) <;>
        simp [perform, hed, seq_prefetch_job_get]
    | stop_request =>
      have hf := set_job_fields w { pfjob with stop := true }
      refine finishing_of_same n R E C N W budget w _ h' ?_ ?_ ?_ ?_
        (Or.inr ⟨pfjob, h5, ?_⟩)
      · simp only [perform, prefetch_stop_request, h5]; exact hf.2.2.2.2.2.1
      · simp only [perform, prefetch_stop_request, h5]; exact hf.2.2.2.1
      · simp only [perform, prefetch_stop_request, h5]; exact hf.2.2.2.2.1
      · simp only [perform, prefetch_stop_request, h5]; exact hf.1
      · simp only [perform, prefetch_stop_request, h5]; exact set_job_get w _ ed hed
    | notify =>
      have e : perform k Action.notify w = w := notify_pc w hnb
      rw [e]; exact h'
    | start context cfra cost =>
      simp only [perform]
      cases hr : BKE_sequencer_prefetch_start k context cfra cost w with
      | none => exact h'
      | some w1 =>
        simp only
        rw [prefetch_start_unfold k context cfra cost w ed hed,
          resume_not_blocked w hnb] at hr
        split at hr
        · split at hr
          · obtain ⟨w2, hs2, _, _, _, _, hs6, _⟩ := seq_prefetch_start_some w cfra ed hed
            rw [hr] at hs2
            have e : w1 = w2 := by simpa using hs2
            left
            rw [e, hs6]
            omega
          · have e : w = w1 := by simpa using hr
            rw [← e]; exact h'
        · have e : w = w1 := by simpa using hr
          rw [← e]; exact h'

theorem finishing_run (k : SeqCacheFlags) (acts : List Action) (n : Nat) (R E : List ℚ)
    (C : ℚ) (N : Int) (W : Bool) (budget : Nat) (w : World)
    (h : finishing n R E C N W budget w) :
    finishing n R E C N W (budget - acts.countP Action.is_worker) (run k acts w) := by
  induction acts generalizing w budget with
  | nil => simpa [run] using h
  | cons a as ih =>
    have h1 := ih _ _ (finishing_perform k a n R E C N W budget w h)
    rw [List.countP_cons]
    rw [run]
    have e : budget - (if a.is_worker = true then 1 else 0) - List.countP Action.is_worker as
        = budget - (List.countP Action.is_worker as + if a.is_worker = true then 1 else 0) := by
      omega
    rw [← e]
    exact h1

/-- Where the way out ends: the thread has returned and `running` is
clear. -/
theorem finish_path_end (pc : WorkerPC) (pfjob : PrefetchJob) (h : finish_path pc pfjob)
    (hr : finish_rank pc = 0) : pc = WorkerPC.done ∧ pfjob.running = false := by
  cases pc <;> simp [finish_rank, finish_path] at h hr ⊢
  exact h

/-! ## The claims about the worker loop -/

/-- C4: in every state reached from a `seq_prefetch_start` by worker steps,
cursor moves and the other actions of the machine, the job is there and
`running` implies `num_frames_prefetched ≥ 1`. -/
theorem running_frames_ahead (k : SeqCacheFlags) (w0 w : World) (cfra : ℚ)
    (acts : List Action) (hstart : seq_prefetch_start w0 cfra = some w) :
    ∃ pfjob, seq_prefetch_job_get (run k acts w).scene = some pfjob ∧
      (pfjob.running = true → 1 ≤ pfjob.num_frames_prefetched) := by
  obtain ⟨pfjob, hjob, hn, _⟩ := job_inv_run k acts w (job_inv_start w0 w cfra hstart)
  exact ⟨pfjob, hjob, fun _ => hn⟩

/-- Witness of C4: a start at frame `5`, three worker steps, the cursor
jumping to frame `40`, a stop request and two more worker steps. -/
theorem running_frames_ahead_witness :
    seq_prefetch_start (sample_world [⟨false, false⟩] 1032) 5 = some sample_started_world ∧
    ∃ pfjob, seq_prefetch_job_get (run sample_flags
        [Action.worker, Action.worker, Action.worker, Action.cursor 40,
          Action.stop_request, Action.worker, Action.worker]
        sample_started_world).scene = some pfjob ∧
      (pfjob.running = true → 1 ≤ pfjob.num_frames_prefetched) := by
  have hstart : seq_prefetch_start (sample_world [⟨false, false⟩] 1032) 5
      = some sample_started_world := by
    simp [sample_world, sample_started_world, seq_prefetch_start, seq_prefetch_job_get,
      World.set_job, Scene.set_prefetch_job]
  exact ⟨hstart, running_frames_ahead sample_flags (sample_world [⟨false, false⟩] 1032)
    sample_started_world 5 _ hstart⟩

/-- C8 (throttle termination): a worker that is past the cache check with
more than `5` frames prefetched and a margin to the live cursor below `2`
leaves the loop at once, and from there on, whatever else happens, as long
as no new thread is inserted: no further frame is evaluated or rendered,
`num_frames_prefetched` and the start of the area stay as they were, and the
next step of the worker ends it with `running` cleared. -/
theorem throttle_termination (k : SeqCacheFlags) (w : World) (pfjob : PrefetchJob)
    (acts : List Action)
    (hjob : seq_prefetch_job_get w.scene = some pfjob)
    (hpc : w.pc = WorkerPC.throttle)
    (hn : pfjob.num_frames_prefetched > 5)
    (hm : pfjob.cfra + (pfjob.num_frames_prefetched : ℚ) - (w.scene.r.cfra : ℚ) < 2) :
    (seq_prefetch_frames_step k w).pc = WorkerPC.exit ∧
    ((run k acts (seq_prefetch_frames_step k w)).threads_inserted = w.threads_inserted →
      (run k acts (seq_prefetch_frames_step k w)).rendered = w.rendered ∧
      (run k acts (seq_prefetch_frames_step k w)).evaluated = w.evaluated ∧
      ∃ j, seq_prefetch_job_get (run k acts (seq_prefetch_frames_step k w)).scene = some j ∧
        j.num_frames_prefetched = pfjob.num_frames_prefetched ∧ j.cfra = pfjob.cfra ∧
        (1 ≤ acts.countP Action.is_worker →
          j.running = false ∧
          (run k acts (seq_prefetch_frames_step k w)).pc = WorkerPC.done)) := by
  obtain ⟨ed, hed, hj⟩ := job_get_ed hjob
  have ht : throttle_condition w pfjob = true := by
    simp [throttle_condition, hn, hm]
  have hstep : seq_prefetch_frames_step k w = { w with pc := WorkerPC.exit } := by
    unfold seq_prefetch_frames_step
    simp only [hed, hj, hpc, ht, if_true]
  have hfin : finishing w.threads_inserted w.rendered w.evaluated pfjob.cfra
      pfjob.num_frames_prefetched pfjob.waiting 1 (seq_prefetch_frames_step k w) := by
    rw [hstep]
    exact Or.inr ⟨rfl, rfl, rfl, le_refl _, pfjob, hjob, rfl, rfl, rfl, trivial⟩
  refine ⟨by rw [hstep], ?_⟩
  intro hti
  rcases finishing_run k acts _ _ _ _ _ _ _ _ hfin with h | ⟨_, h2, h3, h4, j, h5, h6, h7, _, h9⟩
  · omega
  · refine ⟨h2, h3, j, h5, h7, h6, ?_⟩
    intro hc
    have hr : finish_rank (run k acts (seq_prefetch_frames_step k w)).pc = 0 := by omega
    obtain ⟨e1, e2⟩ := finish_path_end _ _ h9 hr
    exact ⟨e2, e1⟩

/-- Witness of C8: seven frames prefetched from frame `5`, the live cursor at
frame `11`; the cursor then moves on and the worker takes its next step. -/
theorem throttle_termination_witness :
    seq_prefetch_job_get sample_throttle_world.scene
      = some (PrefetchJob.mk 5 7 true false false) ∧
    sample_throttle_world.pc = WorkerPC.throttle ∧
    (seq_prefetch_frames_step sample_flags sample_throttle_world).pc = WorkerPC.exit ∧
    ((run sample_flags [Action.cursor 12, Action.worker]
        (seq_prefetch_frames_step sample_flags sample_throttle_world)).threads_inserted
        = sample_throttle_world.threads_inserted →
      (run sample_flags [Action.cursor 12, Action.worker]
        (seq_prefetch_frames_step sample_flags sample_throttle_world)).rendered
        = sample_throttle_world.rendered ∧
      (run sample_flags [Action.cursor 12, Action.worker]
        (seq_prefetch_frames_step sample_flags sample_throttle_world)).evaluated
        = sample_throttle_world.evaluated ∧
      ∃ j, seq_prefetch_job_get (run sample_flags [Action.cursor 12, Action.worker]
          (seq_prefetch_frames_step sample_flags sample_throttle_world)).scene = some j ∧
        j.num_frames_prefetched = 7 ∧ j.cfra = 5 ∧
        (1 ≤ [Action.cursor 12, Action.worker].countP Action.is_worker →
          j.running = false ∧
          (run sample_flags [Action.cursor 12, Action.worker]
            (seq_prefetch_frames_step sample_flags sample_throttle_world)).pc
            = WorkerPC.done)) :=
  ⟨rfl, rfl, throttle_termination sample_flags sample_throttle_world
    (PrefetchJob.mk 5 7 true false false) [Action.cursor 12, Action.worker]
    rfl rfl (by decide) (by norm_num [sample_throttle_world, sample_worker_world])⟩

/-- C9 (cache check): at the condition of the inner `while`, the worker goes
to wait with `waiting` set exactly when the cache is full and recycles no
item, or a screen is scrubbing, and prefetching is enabled and `stop` is not
set; otherwise it clears `waiting` and goes on to the throttle test, the job
still `running` and no thread inserted.  While it waits it takes no step; a
signal wakes it; once woken it re-bases the area on the live cursor and is
back at the condition. -/
theorem cache_check_suspends (k : SeqCacheFlags) (w : World) (ed : Editing)
    (pfjob : PrefetchJob) (hed : w.scene.ed = some ed)
    (hj : ed.prefetch_job = some pfjob) :
    (suspend_condition k w ed pfjob =
      (((w.cache_is_full && !w.cache_recycle_item) || seq_prefetch_is_scrubbing w.bmain) &&
        flag_test ed.cache_flag k.SEQ_CACHE_PREFETCH_ENABLE && !pfjob.stop)) ∧
    (w.pc = WorkerPC.cache_check →
      (((seq_prefetch_frames_step k w).pc = WorkerPC.blocked ∧
          seq_prefetch_job_is_waiting (seq_prefetch_frames_step k w).scene = true) ↔
        suspend_condition k w ed pfjob = true) ∧
      (suspend_condition k w ed pfjob = true →
        seq_prefetch_job_get (seq_prefetch_frames_step k w).scene
          = some { pfjob with waiting := true }) ∧
      (suspend_condition k w ed pfjob = false →
        (seq_prefetch_frames_step k w).pc = WorkerPC.throttle ∧
        seq_prefetch_job_get (seq_prefetch_frames_step k w).scene
          = some { pfjob with waiting := false }) ∧
      (seq_prefetch_frames_step k w).threads_inserted = w.threads_inserted) ∧
    (w.pc = WorkerPC.blocked →
      seq_prefetch_frames_step k w = w ∧
      (BLI_condition_notify_one w).pc = WorkerPC.woken ∧
      (BLI_condition_notify_one w).scene = w.scene) ∧
    (w.pc = WorkerPC.woken →
      (seq_prefetch_frames_step k w).pc = WorkerPC.cache_check ∧
      seq_prefetch_job_get (seq_prefetch_frames_step k w).scene
        = some (seq_prefetch_update_area w.scene.r.cfra pfjob) ∧
      (seq_prefetch_frames_step k w).scene.r = w.scene.r ∧
      (seq_prefetch_frames_step k w).bmain = w.bmain) := by
  refine ⟨?_, ?_, ?_, ?_⟩
  · unfold suspend_condition seq_prefetch_is_cache_full
    cases w.cache_is_full <;> cases w.cache_recycle_item <;> simp
  · intro hpc
    have hstep : seq_prefetch_frames_step k w =
        if suspend_condition k w ed pfjob then
          { (w.set_job { pfjob with waiting := true }) with pc := WorkerPC.blocked }
        else
          { (w.set_job { pfjob with waiting := false }) with pc := WorkerPC.throttle } := by
      unfold seq_prefetch_frames_step
      simp only [hed, hj, hpc]
    have hg1 := set_job_get w { pfjob with waiting := true } ed hed
    have hg2 := set_job_get w { pfjob with waiting := false } ed hed
    refine ⟨?_, ?_, ?_, (step_fields k w).1⟩
    · cases hs : suspend_condition k w ed pfjob
      · rw [hstep, hs]; simp
      · rw [hstep, hs]
        simp only [if_true, iff_true, true_and]
        simp only [seq_prefetch_job_is_waiting]
        rw [show seq_prefetch_job_get (w.set_job { pfjob with waiting := true }).scene
          = some { pfjob with waiting := true } from hg1]
    · intro hs
      rw [hstep, hs]
      exact hg1
    · intro hs
      rw [hstep, hs]
      exact ⟨rfl, hg2⟩
  · intro hpc
    refine ⟨?_, by simp [BLI_condition_notify_one, hpc], (notify_fields w).1⟩
    unfold seq_prefetch_frames_step
    simp only [hed, hj, hpc]
  · intro hpc
    have hstep : seq_prefetch_frames_step k w =
        { (w.set_job (seq_prefetch_update_area w.scene.r.cfra pfjob)) with
          pc := WorkerPC.cache_check } := by
      unfold seq_prefetch_frames_step
      simp only [hed, hj, hpc]
    refine ⟨by rw [hstep], ?_, (step_fields k w).2.2.2.2, (step_fields k w).2.2.2.1⟩
    rw [hstep]
    exact set_job_get w _ ed hed

/-- Witness of C9: a full cache that recycles nothing, prefetching
enabled. -/
theorem cache_check_suspends_witness :
    sample_full_world.pc = WorkerPC.cache_check ∧
    (seq_prefetch_frames_step sample_flags sample_full_world).pc = WorkerPC.blocked ∧
    seq_prefetch_job_is_waiting
      (seq_prefetch_frames_step sample_flags sample_full_world).scene = true := by
  have h := cache_check_suspends sample_flags sample_full_world
    { seqbase := [{ name := "SQstrip" }]
      seqbasep := [{ name := "SQstrip" }]
      cache_flag := 1032
      prefetch_job := some (PrefetchJob.mk 5 2 true false false) }
    (PrefetchJob.mk 5 2 true false false) rfl rfl
  exact ⟨rfl, (h.2.1 rfl).1.mpr (by rw [h.1]; decide)⟩

/-- C10 (cooperative cancellation): take a state of a run begun by
`seq_prefetch_start` in which the worker is rendering and `stop` is set.  The
render step is completed (the frame is rendered) and `waiting` is clear.
From there on, whatever else happens, as long as no new thread is inserted:
no further frame is evaluated or rendered, the worker is never inside the
wait and `waiting` stays clear, and after at most four more steps of the
worker the thread has returned with `running` cleared. -/
theorem cooperative_cancellation (k : SeqCacheFlags) (w0 ws w : World) (cfra0 : ℚ)
    (pre acts : List Action) (pfjob : PrefetchJob)
    (hstart : seq_prefetch_start w0 cfra0 = some ws)
    (hw : w = run k pre ws)
    (hpc : w.pc = WorkerPC.rendering)
    (hjob : seq_prefetch_job_get w.scene = some pfjob)
    (hstop : pfjob.stop = true) :
    (seq_prefetch_frames_step k w).pc = WorkerPC.cache_check ∧
    (seq_prefetch_frames_step k w).rendered
      = w.rendered ++ [pfjob.cfra + (pfjob.num_frames_prefetched : ℚ)] ∧
    seq_prefetch_job_get (seq_prefetch_frames_step k w).scene = some pfjob ∧
    pfjob.waiting = false ∧
    ((run k acts (seq_prefetch_frames_step k w)).threads_inserted = w.threads_inserted →
      (run k acts (seq_prefetch_frames_step k w)).rendered
        = (seq_prefetch_frames_step k w).rendered ∧
      (run k acts (seq_prefetch_frames_step k w)).evaluated = w.evaluated ∧
      (run k acts (seq_prefetch_frames_step k w)).pc ≠ WorkerPC.blocked ∧
      ∃ j, seq_prefetch_job_get (run k acts (seq_prefetch_frames_step k w)).scene = some j ∧
        j.waiting = false ∧
        (4 ≤ acts.countP Action.is_worker →
          j.running = false ∧
          (run k acts (seq_prefetch_frames_step k w)).pc = WorkerPC.done)) := by
  /- `waiting` is clear while rendering -/
  have hinv : job_inv w := by
    rw [hw]; exact job_inv_run k pre ws (job_inv_start w0 ws cfra0 hstart)
  obtain ⟨pfjob1, hjob1, _, hwait1⟩ := hinv
  rw [hjob] at hjob1
  have e : pfjob = pfjob1 := by simpa using hjob1
  subst e
  have hwait : pfjob.waiting = false := by
    cases hv : pfjob.waiting with
    | false => rfl
    | true =>
      have := hwait1 hv
      rw [hpc] at this
      simp at this
  obtain ⟨ed, hed, hj⟩ := job_get_ed hjob
  have hstep : seq_prefetch_frames_step k w =
      { w with
        rendered := w.rendered ++ [pfjob.cfra + (pfjob.num_frames_prefetched : ℚ)]
        temp_cache_freed :=
          w.temp_cache_freed ++ [pfjob.cfra + (pfjob.num_frames_prefetched : ℚ)]
        pc := WorkerPC.cache_check } := by
    unfold seq_prefetch_frames_step
    simp only [hed, hj, hpc]
  have hfin : finishing w.threads_inserted
      (w.rendered ++ [pfjob.cfra + (pfjob.num_frames_prefetched : ℚ)]) w.evaluated
      pfjob.cfra pfjob.num_frames_prefetched false 4 (seq_prefetch_frames_step k w) := by
    rw [hstep]
    exact Or.inr ⟨rfl, rfl, rfl, le_refl _, pfjob, hjob, rfl, rfl, hwait, hstop, hwait⟩
  refine ⟨by rw [hstep], by rw [hstep], by rw [hstep]; exact hjob, hwait, ?_⟩
  intro hti
  rcases finishing_run k acts _ _ _ _ _ _ _ _ hfin with h | ⟨_, h2, h3, h4, j, h5, _, _, h8, h9⟩
  · omega
  · refine ⟨by rw [h2, hstep], h3, finish_path_not_blocked _ _ h9, j, h5, h8, ?_⟩
    intro hc
    have hr : finish_rank (run k acts (seq_prefetch_frames_step k w)).pc = 0 := by omega
    obtain ⟨e1, e2⟩ := finish_path_end _ _ h9 hr
    exact ⟨e2, e1⟩

/-- Witness of C10: after a start at frame `5` the worker enters the loop
and evaluates frame `6`, a stop request comes in, the worker renders; then
the cursor moves and the worker takes four steps. -/
theorem cooperative_cancellation_witness :
    seq_prefetch_start (sample_world [⟨false, false⟩] 1032) 5 = some sample_started_world ∧
    sample_cancel_world = run sample_flags
      [Action.worker, Action.worker, Action.stop_request, Action.worker]
      sample_started_world ∧
    ∃ j, seq_prefetch_job_get (run sample_flags
        [Action.worker, Action.cursor 9, Action.worker, Action.worker, Action.worker]
        (seq_prefetch_frames_step sample_flags sample_cancel_world)).scene = some j ∧
      j.waiting = false ∧ j.running = false ∧
      (run sample_flags
        [Action.worker, Action.cursor 9, Action.worker, Action.worker, Action.worker]
        (seq_prefetch_frames_step sample_flags sample_cancel_world)).pc = WorkerPC.done := by
  have hstart : seq_prefetch_start (sample_world [⟨false, false⟩] 1032) 5
      = some sample_started_world := by
    simp [sample_world, sample_started_world, seq_prefetch_start, seq_prefetch_job_get,
      World.set_job, Scene.set_prefetch_job]
  have hw : sample_cancel_world = run sample_flags
      [Action.worker, Action.worker, Action.stop_request, Action.worker]
      sample_started_world := by
    simp [sample_cancel_world, sample_worker_world, sample_started_world, run, perform,
      seq_prefetch_frames_step, prefetch_stop_request, seq_prefetch_job_get, World.set_job,
      Scene.set_prefetch_job]
    norm_num
  obtain ⟨_, _, _, _, h⟩ := cooperative_cancellation sample_flags
    (sample_world [⟨false, false⟩] 1032) sample_started_world sample_cancel_world 5
    [Action.worker, Action.worker, Action.stop_request, Action.worker]
    [Action.worker, Action.cursor 9, Action.worker, Action.worker, Action.worker]
    (PrefetchJob.mk 5 1 true false true) hstart hw rfl rfl rfl
  have hti : (run sample_flags
      [Action.worker, Action.cursor 9, Action.worker, Action.worker, Action.worker]
      (seq_prefetch_frames_step sample_flags sample_cancel_world)).threads_inserted
      = sample_cancel_world.threads_inserted := by
    simp only [run, perform, step_fields]
  obtain ⟨_, _, _, j, hj, hwj, hd⟩ := h hti
  exact ⟨hstart, hw, j, hj, hwj, (hd (by decide)).1, (hd (by decide)).2⟩

/-! ## Facts about a scene without sequencer data -/

theorem job_get_no_editing (scene : Scene) (h : scene.ed = none) :
    seq_prefetch_job_get scene = none := by
  simp [seq_prefetch_job_get, h]

/-- Without `ed` the first statement of `BKE_sequencer_prefetch_start` reads
through `NULL`. -/
theorem prefetch_start_no_editing (k : SeqCacheFlags) (context : SeqRenderData)
    (cfra cost : ℚ) (w : World) (h : w.scene.ed = none) :
    BKE_sequencer_prefetch_start k context cfra cost w = none := by
  simp [BKE_sequencer_prefetch_start, h]

/-- Without `ed` no job is allocated by `seq_prefetch_start`, and
`seq_prefetch_update_context` reads through the `NULL` job. -/
theorem seq_prefetch_start_no_editing (cfra : ℚ) (w : World) (h : w.scene.ed = none) :
    seq_prefetch_start w cfra = none := by
  simp [seq_prefetch_start, seq_prefetch_job_get, h]

/-- Without a job `BKE_sequencer_prefetch_stop` returns at once, whatever the
fuel, and changes nothing. -/
theorem prefetch_stop_no_job (k : SeqCacheFlags) (fuel : Nat) (w : World)
    (h : seq_prefetch_job_get w.scene = none) :
    BKE_sequencer_prefetch_stop k fuel w = some w := by
  simp [BKE_sequencer_prefetch_stop, h]

/-- Without a job `BKE_sequencer_prefetch_free` returns at once, whatever the
fuel, and changes nothing. -/
theorem prefetch_free_no_job (k : SeqCacheFlags) (fuel : Nat) (w : World)
    (h : seq_prefetch_job_get w.scene = none) :
    BKE_sequencer_prefetch_free k fuel w = some w := by
  simp [BKE_sequencer_prefetch_free, h]

/-! ## The claims about the other entry points -/

/-- C11 at a scene without sequencer data (`scene->ed` is `NULL`): the calls
`BKE_sequencer_prefetch_start` and `seq_prefetch_start` do not complete,
each reads through a `NULL` pointer and has no result; the calls
`BKE_sequencer_prefetch_stop` and `BKE_sequencer_prefetch_free` return at
once and leave everything as it was. -/
theorem start_without_editing :
    sample_no_editing_world.scene.ed = none ∧
    BKE_sequencer_prefetch_start sample_flags plain_context 5 0 sample_no_editing_world
      = none ∧
    seq_prefetch_start sample_no_editing_world 5 = none ∧
    BKE_sequencer_prefetch_stop sample_flags 0 sample_no_editing_world
      = some sample_no_editing_world ∧
    BKE_sequencer_prefetch_free sample_flags 0 sample_no_editing_world
      = some sample_no_editing_world :=
  ⟨rfl,
    prefetch_start_no_editing sample_flags plain_context 5 0 sample_no_editing_world rfl,
    seq_prefetch_start_no_editing 5 sample_no_editing_world rfl,
    prefetch_stop_no_job sample_flags 0 sample_no_editing_world
      (job_get_no_editing _ rfl),
    prefetch_free_no_job sample_flags 0 sample_no_editing_world
      (job_get_no_editing _ rfl)⟩

/-- C12: `BKE_sequencer_prefetch_need_redraw` always gives an answer, and
the answer is `true` exactly when a screen is scrubbing, or the job of the
scene is running and not waiting, no screen is playing and the cache view
bit of `cache_flag` is set; for a scene without a job the answer is `true`
exactly when a screen is scrubbing.  The function reads `bmain` and `scene`
and yields only the answer, so no state is changed. -/
theorem need_redraw_query (k : SeqCacheFlags) (bmain : Main) (scene : Scene) :
    ∃ b, BKE_sequencer_prefetch_need_redraw k bmain scene = some b ∧
      (b = true ↔
        seq_prefetch_is_scrubbing bmain = true ∨
        (seq_prefetch_job_is_running scene = true ∧
          seq_prefetch_job_is_waiting scene = false ∧
          seq_prefetch_is_playing bmain = false ∧
          ∃ ed, scene.ed = some ed ∧
            flag_test ed.cache_flag k.SEQ_CACHE_VIEW_ENABLE = true)) ∧
      (seq_prefetch_job_get scene = none →
        (b = true ↔ seq_prefetch_is_scrubbing bmain = true)) := by
  unfold BKE_sequencer_prefetch_need_redraw
  cases hed : scene.ed with
  | none =>
    have hj : seq_prefetch_job_get scene = none := job_get_no_editing scene hed
    have hr : seq_prefetch_job_is_running scene = false := by
      simp [seq_prefetch_job_is_running, hj]
    cases hs : seq_prefetch_is_scrubbing bmain <;> simp [hr]
  | some ed =>
    have hnone : seq_prefetch_job_get scene = none →
        seq_prefetch_job_is_running scene = false := by
      intro hj
      simp [seq_prefetch_job_is_running, hj]
    cases hr : seq_prefetch_job_is_running scene <;>
      cases hw : seq_prefetch_job_is_waiting scene <;>
      cases hp : seq_prefetch_is_playing bmain <;>
      cases hs : seq_prefetch_is_scrubbing bmain <;>
      cases hv : flag_test ed.cache_flag k.SEQ_CACHE_VIEW_ENABLE <;>
      simp_all

/-! ## Facts about the scan of the strip list -/

/-- A strip the scan stops at sits in the list after strips of other names
only, and has the name looked for. -/
theorem original_sequence_scan_some (seq s : Sequence) (l : List Sequence)
    (h : original_sequence_scan seq l = some s) :
    ∃ before after, l = before ++ s :: after ∧ s.name = seq.name ∧
      ∀ x ∈ before, x.name ≠ seq.name := by
  induction l with
  | nil => simp [original_sequence_scan] at h
  | cons seq_orig rest ih =>
    rw [original_sequence_scan] at h
    by_cases hn : seq.name = seq_orig.name
    · rw [if_pos hn] at h
      have e : seq_orig = s := by simpa using h
      subst e
      exact ⟨[], rest, rfl, hn.symm, by simp⟩
    · rw [if_neg hn] at h
      obtain ⟨before, after, hl, hs, hb⟩ := ih h
      refine ⟨seq_orig :: before, after, by rw [hl]; rfl, hs, ?_⟩
      intro x hx
      rcases List.mem_cons.mp hx with hx | hx
      · rw [hx]; exact fun e => hn e.symm
      · exact hb x hx

/-- The scan ends with `NULL` exactly on a list without the name. -/
theorem original_sequence_scan_none (seq : Sequence) (l : List Sequence) :
    original_sequence_scan seq l = none ↔ ∀ x ∈ l, x.name ≠ seq.name := by
  induction l with
  | nil => simp [original_sequence_scan]
  | cons seq_orig rest ih =>
    rw [original_sequence_scan]
    by_cases hn : seq.name = seq_orig.name
    · rw [if_pos hn]
      simp [hn]
    · rw [if_neg hn, ih]
      have hn2 : seq_orig.name ≠ seq.name := fun e => hn e.symm
      simp [hn2]

/-! ## The claim about the lookup for the cache context -/

/-- C13: on a scene with sequencer data,
`BKE_sequencer_prefetch_get_original_sequence` returns; a strip it returns
is the first strip of the top-level list `seqbase` with the name of the
given strip (it has that name, and every strip before it in the list has
another name), and it returns `NULL` exactly when no strip of `seqbase` has
that name. -/
theorem original_sequence_lookup (seq : Sequence) (scene : Scene) (ed : Editing)
    (hed : scene.ed = some ed) :
    ∃ r, BKE_sequencer_prefetch_get_original_sequence seq scene = some r ∧
      (∀ s, r = some s →
        ∃ before after, ed.seqbase = before ++ s :: after ∧ s.name = seq.name ∧
          ∀ x ∈ before, x.name ≠ seq.name) ∧
      (r = none ↔ ∀ x ∈ ed.seqbase, x.name ≠ seq.name) := by
  refine ⟨original_sequence_scan seq ed.seqbase, ?_, ?_, ?_⟩
  · simp [BKE_sequencer_prefetch_get_original_sequence, hed]
  · intro s hs
    exact original_sequence_scan_some seq s ed.seqbase hs
  · exact original_sequence_scan_none seq ed.seqbase

/-- Witness of C13: in a list with the strips `SQintro`, `SQtitle` (channel
`2`) and `SQtitle` (channel `3`), the lookup of a strip named `SQtitle`
returns the one on channel `2`, and the lookup of a strip named `SQcredits`
returns `NULL`. -/
theorem original_sequence_lookup_witness :
    BKE_sequencer_prefetch_get_original_sequence { name := "SQtitle", machine := 7 }
      sample_lookup_scene = some (some { name := "SQtitle", machine := 2 }) ∧
    BKE_sequencer_prefetch_get_original_sequence { name := "SQcredits", machine := 7 }
      sample_lookup_scene = some none ∧
    ∃ r, BKE_sequencer_prefetch_get_original_sequence { name := "SQtitle", machine := 7 }
        sample_lookup_scene = some r ∧
      (∀ s, r = some s →
        ∃ before after,
          [({ name := "SQintro", machine := 1 } : Sequence),
            { name := "SQtitle", machine := 2 }, { name := "SQtitle", machine := 3 }]
            = before ++ s :: after ∧
          s.name = "SQtitle" ∧ ∀ x ∈ before, x.name ≠ "SQtitle") ∧
      (r = none ↔
        ∀ x ∈ [({ name := "SQintro", machine := 1 } : Sequence),
          { name := "SQtitle", machine := 2 }, { name := "SQtitle", machine := 3 }],
          x.name ≠ "SQtitle") :=
  ⟨by decide, by decide,
    original_sequence_lookup { name := "SQtitle", machine := 7 } sample_lookup_scene
      { seqbase :=
          [{ name := "SQintro", machine := 1 }, { name := "SQtitle", machine := 2 },
            { name := "SQtitle", machine := 3 }]
        seqbasep := []
        cache_flag := 1032
        prefetch_job := none } rfl⟩

end SeqPrefetch
